import Mathlib

/-!
Verification of the Sailfish Secrets daemon Request Processor
(src/daemon/SecretsImpl/secretsrequestprocessor.cpp) against its
natural-language specification.

The C++ request processor is embedded shallowly: every external
collaborator call (bookkeeping database, storage / encryption /
encrypted-storage / authentication plugins, the surrounding request
queue) is resolved through an explicit environment `Env` recording the
outcome that collaborator would produce, and every operation is a pure
Lean function from the processor state `PState` and its arguments to a
`Step`: the synchronous return value, the eventual asynchronous result
(if the operation went asynchronous), the updated processor state, and
the ordered trace of external effects.  Control flow, guard order and
state updates are translated line by line from the source.
-/

namespace SailfishSecrets

/-- Byte arrays (`QByteArray`) are modelled as lists of byte values. -/
abbrev Bytes := List Nat

/-- Top-level result code of `Sailfish::Secrets::Result::code()`. -/
inductive ResultCode
  | Succeeded
  | Pending
  | Failed
deriving DecidableEq, Repr

/-- Error codes carried by a `Result` (spec section 7 error kinds). -/
inductive ErrorCode
  | NoError
  | UnknownError
  | InvalidCollectionError
  | CollectionAlreadyExistsError
  | InvalidSecretError
  | SecretAlreadyExistsError
  | InvalidFilterError
  | InvalidExtensionPluginError
  | CollectionIsLockedError
  | IncorrectAuthenticationCodeError
  | SecretsDaemonLockedError
  | OperationRequiresUserInteraction
  | OperationRequiresApplicationUserInteraction
  | InteractionViewUserCanceledError
  | PermissionsError
  | OperationNotSupportedError
  | InterleavedRequestError
deriving DecidableEq, Repr

/-- Modelled from the spec: results are carried as a code plus message
(spec section 7); the library's result type (outside src/) additionally
distinguishes the terminal code from the error code, which the
processor source relies on (it compares `code()` against
`Succeeded` / `Pending` / `Failed` and constructs results from error
codes). -/
structure Result where
  code : ResultCode
  errorCode : ErrorCode
  message : String
deriving DecidableEq, Repr

/-- Result constructed from a bare `Result::Succeeded` code. -/
def Result.succeeded : Result := ⟨ResultCode.Succeeded, ErrorCode.NoError, ""⟩

/-- Result constructed from a bare `Result::Pending` code. -/
def Result.pendingResult : Result := ⟨ResultCode.Pending, ErrorCode.NoError, ""⟩

/-- Result constructed from an error code and message (the C++
constructor taking an `ErrorCode` yields `code() == Failed`). -/
def Result.err (e : ErrorCode) (msg : String) : Result :=
  ⟨ResultCode.Failed, e, msg⟩

/-- Access control modes of `SecretManager`. -/
inductive AccessControlMode
  | OwnerOnlyMode
  | SystemAccessControlMode
  | NoAccessControlMode
deriving DecidableEq, Repr

/-- User interaction modes of `SecretManager`. -/
inductive UserInteractionMode
  | PreventInteraction
  | SystemInteraction
  | ApplicationInteraction
deriving DecidableEq, Repr

/-- Unlock semantics (spec section 3); the source stores these as ints
and spells the timeout-relock value `CustomLockTimoutRelock`. -/
inductive UnlockSemantic
  | DeviceLockKeepUnlocked
  | DeviceLockRelock
  | CustomLockKeepUnlocked
  | CustomLockTimoutRelock
deriving DecidableEq, Repr

/-- Targets of the lock-code lifecycle operations. -/
inductive LockCodeTargetType
  | BookkeepingDatabase
  | ExtensionPlugin
  | StandaloneSecret
  | Collection
deriving DecidableEq, Repr

/-- A collection row of the bookkeeping database (the out-parameters of
`collectionMetadata`). -/
structure CollectionMetadata where
  applicationId : String
  usesDeviceLockKey : Bool
  storagePluginName : String
  encryptionPluginName : String
  authenticationPluginName : String
  unlockSemantic : UnlockSemantic
  customLockTimeoutMs : Nat
  accessControlMode : AccessControlMode
deriving DecidableEq, Repr

/-- A secret row of the bookkeeping database (the out-parameters of
`secretMetadata`). -/
structure SecretMetadata where
  applicationId : String
  usesDeviceLockKey : Bool
  storagePluginName : String
  encryptionPluginName : String
  authenticationPluginName : String
  unlockSemantic : UnlockSemantic
  customLockTimeoutMs : Nat
  accessControlMode : AccessControlMode
deriving DecidableEq, Repr

/-- A secret identifier: name plus collection name. -/
structure Identifier where
  name : String
  collectionName : String
deriving DecidableEq, Repr

/-- Interaction parameters, reduced to the fields the processor
consults before forwarding them: validity and the requested
authentication plugin. -/
structure InteractionParams where
  valid : Bool
  authenticationPluginName : String
deriving DecidableEq, Repr

/-- ASCII lower-case folding of a character code. -/
def charLowerNat (c : Char) : Nat :=
  if 65 ≤ c.toNat && c.toNat ≤ 90 then c.toNat + 32 else c.toNat

/-- Case-insensitive string equality, modelling
`QString::compare(..., Qt::CaseInsensitive) == 0` (the names compared
case-insensitively by the processor are ASCII). -/
def eqCI (a b : String) : Bool :=
  a.data.map charLowerNat == b.data.map charLowerNat

/-- Modelled from the spec: `hashed_secret_name = H(collection_name,
secret_name)` for a stable collision-resistant hash
(`Daemon::Util::generateHashedSecretName`, outside src/).  An injective
tagged encoding stands in for the hash; like a real hash digest, the
result differs from the plain secret name. -/
def generateHashedSecretName (collectionName secretName : String) : String :=
  "sha256:" ++ collectionName ++ "/" ++ secretName

/-- External effects of an operation, in program order. -/
inductive Event
  | bkdbCollectionExists (c : String)
  | bkdbCollectionMetadata (c : String)
  | bkdbSecretExists (c h : String)
  | bkdbSecretMetadata (c h : String)
  | bkdbInsertCollection (c : String)
  | bkdbInsertSecret (c h : String)
  | bkdbUpdateSecret (c h : String)
  | bkdbDeleteCollection (c : String)
  | bkdbDeleteSecret (c h : String)
  | bkdbCleanupDeleteCollection (c : String)
  | bkdbCleanupDeleteSecret (c h : String)
  | bkdbReencrypt
  | bkdbLock
  | bkdbUnlock
  | bkdbCollectionNames
  | bkdbHashedSecretNames (c : String)
  | busyInsert (c : String)
  | busyRemove (c : String)
  | pluginCreateCollection (p c : String)
  | pluginRemoveCollection (p c : String)
  | pluginIsCollectionLocked (p c : String)
  | pluginSetSecret (p c h : String)
  | pluginGetSecret (p c h : String)
  | pluginRemoveSecret (p c h : String)
  | pluginFindSecrets (p c : String)
  | pluginDeriveKeyFromCode (p : String)
  | pluginReencryptCollection (c : String)
  | pluginReencryptStandaloneSecret (h : String)
  | modifyMasterLockPlugins
  | masterLockPlugins
  | masterUnlockPlugins
  | beginUserInput
  | initialiseKey (code : Bytes)
  | cacheRemoveStandaloneKey (k : String)
deriving DecidableEq, Repr

/-- Mutable processor state owned by the dispatch thread.
`keyInitCode` abstracts the daemon key material held by the request
queue as the lock code it was most recently initialised from. -/
structure PState where
  collectionEncryptionKeys : List (String × Bytes)
  collectionLockTimers : List (String × Nat)
  standaloneSecretEncryptionKeys : List (String × Bytes)
  standaloneSecretLockTimers : List (String × Nat)
  busyCollections : List String
  keyInitCode : Bytes
  noLockCode : Bool
deriving DecidableEq, Repr

/-- Membership in a `QMap` keyed by strings. -/
def mapContains (m : List (String × α)) (k : String) : Bool :=
  m.any (fun p => p.1 == k)

/-- Removal from a `QMap` keyed by strings. -/
def mapRemove (m : List (String × α)) (k : String) : List (String × α) :=
  m.filter (fun p => p.1 != k)

/-- Insertion into a `QMap` keyed by strings (replacing any previous
value for the key). -/
def mapInsert (m : List (String × α)) (k : String) (v : α) : List (String × α) :=
  mapRemove m k ++ [(k, v)]

/-- Lookup in a `QMap` of byte arrays (`QMap::value`, defaulting to an
empty byte array). -/
def mapValue (m : List (String × Bytes)) (k : String) : Bytes :=
  match m.find? (fun p => p.1 == k) with
  | some p => p.2
  | none => []

/-- Modelled from the spec: the interleave guard's busy-set membership
test (`interleavedRequestsAllowed`, declared outside src/): allowed
exactly when the collection is not in the busy set. -/
def interleavedRequestsAllowed (st : PState) (collectionName : String) : Bool :=
  !(st.busyCollections.contains collectionName)

/-- Modelled from the spec: mark a collection busy
(`preventInterleavedRequests`, declared outside src/). -/
def preventInterleavedRequests (st : PState) (collectionName : String) : PState :=
  { st with busyCollections := collectionName :: st.busyCollections }

/-- Modelled from the spec: clear a collection's busy mark
(`allowInterleavedRequests`, declared outside src/). -/
def allowInterleavedRequests (st : PState) (collectionName : String) : PState :=
  { st with busyCollections := st.busyCollections.filter (fun c => c != collectionName) }

/-- Modelled from the spec: the recoverable busy-collection error
(`interleavedRequestError`, declared outside src/). -/
def interleavedRequestError : Result :=
  Result.err ErrorCode.InterleavedRequestError
    "Another critical request is currently being performed on that collection"

/-- Environment of outcomes for every external collaborator call an
operation may perform; plugin name lists mirror the plugin registries
loaded at startup. -/
structure Env where
  applicationIsPlatformApplication : Bool
  platformApplicationId : String
  applicationIdOfCaller : String
  autotestMode : Bool
  storagePlugins : List String
  encryptionPlugins : List String
  encryptedStoragePlugins : List String
  authenticationPlugins : List String
  authenticationTypesAppSpecific : String → Bool
  beginUserInputResult : Result
  collectionAlreadyExists : String → Result × Bool
  collectionMetadata : String → Result × Option CollectionMetadata
  secretAlreadyExists : String → String → Result × Bool
  secretMetadata : String → String → Result × Option SecretMetadata
  collectionNamesResult : Result × List String
  hashedSecretNamesResult : Result × List String
  insertCollectionResult : Result
  insertSecretResult : Result
  updateSecretResult : Result
  deleteCollectionResult : Result
  deleteSecretResult : Result
  cleanupDeleteCollectionResult : Result
  cleanupDeleteSecretResult : Result
  reencryptResult : Result
  bkdbLockResult : Result
  bkdbIsInitialised : Bool
  initialiseOk : Bytes → Bool
  testLockCode : Bytes → Bool
  deviceLockKey : Bytes
  pluginCreateCollectionResult : Result
  pluginRemoveCollectionResult : Result
  pluginSetSecretResult : Result
  pluginGetSecretResult : Result
  pluginRemoveSecretResult : Result
  pluginFindSecretsResult : Result
  pluginIsCollectionLocked : String → Result × Bool
  deriveKeyFromCode : Bytes → Result × Bytes
  pluginReencryptCollectionResult : String → Result
  pluginReencryptStandaloneSecretResult : String → Result
  modifyLockPluginFound : Bool
  modifyLockPluginResult : Result
  supportsLocking : String → Bool
  authPluginSetLockCodeOk : String → Bool
  setLockCodeCryptoPluginResult : Result
  lockPluginFound : Bool
  lockPluginResult : Result
  authPluginLockOk : String → Bool
  lockCryptoPluginResult : Result

/-- Caller identity resolution used on entry to every operation: the
platform application id for platform callers, the per-application id
otherwise. -/
def callerApplicationId (env : Env) : String :=
  if env.applicationIsPlatformApplication then env.platformApplicationId
  else env.applicationIdOfCaller

/-- Outcome of one operation: the synchronous return, the final result
later delivered through the request queue (`none` when the operation
completed synchronously or suspended awaiting user input), the updated
processor state and the trace of external effects. -/
structure Step where
  sync : Result
  final : Option Result
  st : PState
  tr : List Event
deriving DecidableEq, Repr

/-- Short constructor for a synchronous-return step. -/
def Step.ret (r : Result) (st : PState) (tr : List Event) : Step :=
  ⟨r, none, st, tr⟩

/-- Outcome of a continuation that already runs in the asynchronous
phase (a `void` method delivering its result through the request
queue). -/
structure AsyncStep where
  final : Result
  st : PState
  tr : List Event
deriving DecidableEq, Repr

/-- Wrap an asynchronous continuation as the step of a dispatcher that
already returned `Pending`. -/
def AsyncStep.toStep (a : AsyncStep) : Step :=
  ⟨Result.pendingResult, some a.final, a.st, a.tr⟩

/-- Modelled from the spec: the well-known default authentication
plugin name (`SecretManager::DefaultAuthenticationPluginName`, defined
outside src/). -/
def DefaultAuthenticationPluginName : String :=
  "org.sailfishos.secrets.plugin.authentication.default"

/-- Resolution of the user-input authentication plugin: the requested
plugin, or the default one (suffixed `.test` in autotest mode) when no
plugin was requested. -/
def userInputPluginName (env : Env) (requested : String) : String :=
  if requested.isEmpty then
    if env.autotestMode then DefaultAuthenticationPluginName ++ ".test"
    else DefaultAuthenticationPluginName
  else requested

/-- Embedding of `RequestProcessor::createDeviceLockCollection`. -/
def createDeviceLockCollection (env : Env) (st : PState)
    (collectionName storagePluginName encryptionPluginName : String)
    (_unlockSemantic : UnlockSemantic) (_accessControlMode : AccessControlMode) : Step :=
  if eqCI collectionName "standalone" then
    Step.ret (Result.err ErrorCode.InvalidCollectionError "Reserved collection name given") st []
  else if storagePluginName == encryptionPluginName
      && !(env.encryptedStoragePlugins.contains storagePluginName) then
    Step.ret (Result.err ErrorCode.InvalidExtensionPluginError
      "No such encrypted storage plugin exists") st []
  else if storagePluginName != encryptionPluginName
      && !(env.storagePlugins.contains storagePluginName) then
    Step.ret (Result.err ErrorCode.InvalidExtensionPluginError
      "No such storage plugin exists") st []
  else if storagePluginName != encryptionPluginName
      && !(env.encryptionPlugins.contains encryptionPluginName) then
    Step.ret (Result.err ErrorCode.InvalidExtensionPluginError
      "No such encryption plugin exists") st []
  else
    let existsPair := env.collectionAlreadyExists collectionName
    let tr0 := [Event.bkdbCollectionExists collectionName]
    if existsPair.1.code != ResultCode.Succeeded then
      Step.ret existsPair.1 st tr0
    else if existsPair.2 then
      Step.ret (Result.err ErrorCode.CollectionAlreadyExistsError
        "Collection already exists") st tr0
    else if !(interleavedRequestsAllowed st collectionName) then
      Step.ret interleavedRequestError st tr0
    else
      let st1 := preventInterleavedRequests st collectionName
      let tr1 := tr0 ++ [Event.busyInsert collectionName,
        Event.bkdbInsertCollection collectionName]
      if env.insertCollectionResult.code != ResultCode.Succeeded then
        -- the source returns here without clearing the busy mark
        Step.ret env.insertCollectionResult st1 tr1
      else
        let tr2 := tr1 ++ [Event.pluginCreateCollection storagePluginName collectionName]
        let pluginResult := env.pluginCreateCollectionResult
        if pluginResult.code != ResultCode.Succeeded then
          let cleanupResult := env.cleanupDeleteCollectionResult
          let finalResult :=
            if cleanupResult.code != ResultCode.Succeeded then cleanupResult
            else pluginResult
          ⟨Result.pendingResult, some finalResult,
            allowInterleavedRequests st1 collectionName,
            tr2 ++ [Event.bkdbCleanupDeleteCollection collectionName,
              Event.busyRemove collectionName]⟩
        else
          let st2 :=
            if storagePluginName != encryptionPluginName then
              { st1 with collectionEncryptionKeys :=
                  mapInsert st1.collectionEncryptionKeys collectionName env.deviceLockKey }
            else st1
          ⟨Result.pendingResult, some pluginResult,
            allowInterleavedRequests st2 collectionName,
            tr2 ++ [Event.busyRemove collectionName]⟩

/-- Embedding of `RequestProcessor::createCustomLockCollection` (the
dispatch phase, which always suspends for the passphrase prompt). -/
def createCustomLockCollection (env : Env) (st : PState)
    (collectionName storagePluginName encryptionPluginName authenticationPluginName : String)
    (_unlockSemantic : UnlockSemantic) (_customLockTimeoutMs : Nat)
    (_accessControlMode : AccessControlMode)
    (userInteractionMode : UserInteractionMode) (interactionServiceAddress : String) : Step :=
  if eqCI collectionName "standalone" then
    Step.ret (Result.err ErrorCode.InvalidCollectionError "Reserved collection name given") st []
  else if storagePluginName == encryptionPluginName
      && !(env.encryptedStoragePlugins.contains storagePluginName) then
    Step.ret (Result.err ErrorCode.InvalidExtensionPluginError
      "No such encrypted storage plugin exists") st []
  else if storagePluginName != encryptionPluginName
      && !(env.storagePlugins.contains storagePluginName) then
    Step.ret (Result.err ErrorCode.InvalidExtensionPluginError
      "No such storage plugin exists") st []
  else if storagePluginName != encryptionPluginName
      && !(env.encryptionPlugins.contains encryptionPluginName) then
    Step.ret (Result.err ErrorCode.InvalidExtensionPluginError
      "No such encryption plugin exists") st []
  else if !(env.authenticationPlugins.contains authenticationPluginName) then
    Step.ret (Result.err ErrorCode.InvalidExtensionPluginError
      "No such authentication plugin exists") st []
  else if env.authenticationTypesAppSpecific authenticationPluginName
      && (userInteractionMode != UserInteractionMode.ApplicationInteraction
          || interactionServiceAddress.isEmpty) then
    Step.ret (Result.err ErrorCode.OperationRequiresApplicationUserInteraction
      "Authentication plugin requires in-process user interaction") st []
  else if userInteractionMode == UserInteractionMode.PreventInteraction then
    Step.ret (Result.err ErrorCode.OperationRequiresUserInteraction
      "Authentication plugin requires user interaction") st []
  else
    let existsPair := env.collectionAlreadyExists collectionName
    let tr0 := [Event.bkdbCollectionExists collectionName]
    if existsPair.1.code != ResultCode.Succeeded then
      Step.ret existsPair.1 st tr0
    else if existsPair.2 then
      Step.ret (Result.err ErrorCode.CollectionAlreadyExistsError
        "Collection already exists") st tr0
    else
      let tr1 := tr0 ++ [Event.beginUserInput]
      if env.beginUserInputResult.code == ResultCode.Failed then
        Step.ret env.beginUserInputResult st tr1
      else
        ⟨Result.pendingResult, none, st, tr1⟩

/-- Embedding of `RequestProcessor::deleteCollectionFinalise`. -/
def deleteCollectionFinalise (env : Env) (st : PState)
    (collectionName : String) (tr : List Event) : AsyncStep :=
  let st1 := { st with
    collectionEncryptionKeys := mapRemove st.collectionEncryptionKeys collectionName,
    collectionLockTimers := mapRemove st.collectionLockTimers collectionName }
  let tr1 := tr ++ [Event.bkdbDeleteCollection collectionName]
  if env.deleteCollectionResult.code != ResultCode.Succeeded then
    ⟨env.deleteCollectionResult, st1, tr1⟩
  else
    ⟨Result.succeeded, st1, tr1⟩

/-- Embedding of `RequestProcessor::deleteCollection`. -/
def deleteCollection (env : Env) (st : PState)
    (collectionName : String) (_userInteractionMode : UserInteractionMode) : Step :=
  if eqCI collectionName "standalone" then
    Step.ret (Result.err ErrorCode.InvalidCollectionError "Reserved collection name given") st []
  else if collectionName.isEmpty then
    Step.ret (Result.err ErrorCode.InvalidCollectionError "Empty collection name given") st []
  else
    let md := env.collectionMetadata collectionName
    let tr0 := [Event.bkdbCollectionMetadata collectionName]
    if md.1.code != ResultCode.Succeeded then
      Step.ret md.1 st tr0
    else
      match md.2 with
      | none =>
        -- no such collection exists, so deleting succeeded
        Step.ret Result.succeeded st tr0
      | some m =>
        if m.accessControlMode == AccessControlMode.SystemAccessControlMode then
          Step.ret (Result.err ErrorCode.OperationNotSupportedError
            "Access control requests are not currently supported. TODO!") st tr0
        else if m.accessControlMode == AccessControlMode.OwnerOnlyMode
            && m.applicationId != callerApplicationId env then
          Step.ret (Result.err ErrorCode.PermissionsError
            "Collection is owned by a different application") st tr0
        else if m.storagePluginName == m.encryptionPluginName
            && !(env.encryptedStoragePlugins.contains m.storagePluginName) then
          Step.ret (Result.err ErrorCode.InvalidExtensionPluginError
            "No such encrypted storage plugin exists") st tr0
        else if m.storagePluginName != m.encryptionPluginName
            && (m.storagePluginName.isEmpty
                || !(env.storagePlugins.contains m.storagePluginName)) then
          Step.ret (Result.err ErrorCode.InvalidExtensionPluginError
            "No such storage plugin exists") st tr0
        else if m.accessControlMode == AccessControlMode.OwnerOnlyMode
            && m.applicationId != callerApplicationId env then
          -- the source repeats the owner check with a second message
          Step.ret (Result.err ErrorCode.PermissionsError
            "Not the owner, cannot delete collection") st tr0
        else
          let st1 := preventInterleavedRequests st collectionName
          let tr1 := tr0 ++ [Event.busyInsert collectionName,
            Event.pluginRemoveCollection m.storagePluginName collectionName,
            Event.busyRemove collectionName]
          let st2 := allowInterleavedRequests st1 collectionName
          let pluginResult := env.pluginRemoveCollectionResult
          if pluginResult.code == ResultCode.Failed then
            ⟨Result.pendingResult, some pluginResult, st2, tr1⟩
          else
            (deleteCollectionFinalise env st2 collectionName tr1).toStep

/-- Embedding of `RequestProcessor::setCollectionSecretMetadata` (the
crypto-API helper that records a secret row without storing data). -/
def setCollectionSecretMetadata (env : Env) (st : PState) (identifier : Identifier) : Step :=
  if identifier.name.isEmpty then
    Step.ret (Result.err ErrorCode.InvalidSecretError "Empty secret name given") st []
  else if identifier.collectionName.isEmpty then
    Step.ret (Result.err ErrorCode.InvalidCollectionError "Empty collection name given") st []
  else if eqCI identifier.collectionName "standalone" then
    Step.ret (Result.err ErrorCode.InvalidCollectionError "Reserved collection name given") st []
  else if !(interleavedRequestsAllowed st identifier.collectionName) then
    Step.ret interleavedRequestError st []
  else
    let md := env.collectionMetadata identifier.collectionName
    let tr0 := [Event.bkdbCollectionMetadata identifier.collectionName]
    if md.1.code != ResultCode.Succeeded then
      Step.ret md.1 st tr0
    else
      match md.2 with
      | none =>
        Step.ret (Result.err ErrorCode.InvalidCollectionError
          "Nonexistent collection name given") st tr0
      | some m =>
        if m.accessControlMode == AccessControlMode.SystemAccessControlMode then
          Step.ret (Result.err ErrorCode.OperationNotSupportedError
            "Access control requests are not currently supported. TODO!") st tr0
        else if m.accessControlMode == AccessControlMode.OwnerOnlyMode
            && m.applicationId != callerApplicationId env then
          Step.ret (Result.err ErrorCode.PermissionsError
            "Collection is owned by a different application") st tr0
        else if m.storagePluginName == m.encryptionPluginName
            && !(env.encryptedStoragePlugins.contains m.storagePluginName) then
          Step.ret (Result.err ErrorCode.InvalidExtensionPluginError
            "No such encrypted storage plugin exists") st tr0
        else if m.storagePluginName != m.encryptionPluginName
            && (m.storagePluginName.isEmpty
                || !(env.storagePlugins.contains m.storagePluginName)) then
          Step.ret (Result.err ErrorCode.InvalidExtensionPluginError
            "No such storage plugin exists") st tr0
        else if m.storagePluginName != m.encryptionPluginName
            && (m.encryptionPluginName.isEmpty
                || !(env.encryptionPlugins.contains m.encryptionPluginName)) then
          Step.ret (Result.err ErrorCode.InvalidExtensionPluginError
            "No such encryption plugin exists") st tr0
        else if m.storagePluginName != m.encryptionPluginName then
          Step.ret (Result.err ErrorCode.InvalidExtensionPluginError
            "The identified collection is not encrypted by that plugin") st tr0
        else
          let lk := env.pluginIsCollectionLocked identifier.collectionName
          let tr1 := tr0 ++ [Event.pluginIsCollectionLocked m.storagePluginName
            identifier.collectionName]
          if lk.1.code != ResultCode.Succeeded then
            Step.ret lk.1 st tr1
          else if lk.2 then
            if m.usesDeviceLockKey then
              Step.ret (Result.err ErrorCode.CollectionIsLockedError
                "Collection is locked and requires device lock authentication") st tr1
            else
              Step.ret (Result.err ErrorCode.OperationRequiresUserInteraction
                "Collection is locked and requires user interaction to unlock") st tr1
          else
            let hashedSecretName :=
              generateHashedSecretName identifier.collectionName identifier.name
            let ex := env.secretAlreadyExists identifier.collectionName hashedSecretName
            let tr2 := tr1 ++ [Event.bkdbSecretExists identifier.collectionName hashedSecretName]
            if ex.1.code != ResultCode.Succeeded then
              Step.ret ex.1 st tr2
            else if ex.2 then
              Step.ret (Result.err ErrorCode.SecretAlreadyExistsError
                "A secret with that name already exists in the collection") st tr2
            else
              Step.ret env.insertSecretResult st
                (tr2 ++ [Event.bkdbInsertSecret identifier.collectionName hashedSecretName])

/-- Embedding of
`RequestProcessor::setCollectionSecretWithEncryptionKeyFinalise`. -/
def setCollectionSecretWithEncryptionKeyFinalise (env : Env) (st : PState)
    (collectionName : String) (secretAlreadyExistsFlag : Bool)
    (hashedSecretName : String) (pluginResult : Result) (tr : List Event) : AsyncStep :=
  if pluginResult.code == ResultCode.Failed && !secretAlreadyExistsFlag then
    let cleanupResult := env.cleanupDeleteSecretResult
    let returnResult :=
      if cleanupResult.code != ResultCode.Succeeded then cleanupResult else pluginResult
    ⟨returnResult, st, tr ++ [Event.bkdbCleanupDeleteSecret collectionName hashedSecretName]⟩
  else
    ⟨pluginResult, st, tr⟩

/-- Shared tail of
`RequestProcessor::setCollectionSecretWithEncryptionKey` after the
exists-check / insert block: dispatch the plugin write and finalise. -/
def setCollectionSecretDispatch (env : Env) (st : PState) (secret : Identifier)
    (collectionStoragePluginName collectionEncryptionPluginName : String)
    (secretAlreadyExistsFlag : Bool) (hashedSecretName : String)
    (encryptionKey : Bytes) (tr : List Event) : AsyncStep :=
  if collectionStoragePluginName == collectionEncryptionPluginName then
    setCollectionSecretWithEncryptionKeyFinalise env st secret.collectionName
      secretAlreadyExistsFlag hashedSecretName env.pluginSetSecretResult
      (tr ++ [Event.pluginSetSecret collectionStoragePluginName
        secret.collectionName hashedSecretName])
  else
    let st1 :=
      if !(mapContains st.collectionEncryptionKeys secret.collectionName) then
        { st with collectionEncryptionKeys :=
            mapInsert st.collectionEncryptionKeys secret.collectionName encryptionKey }
      else st
    setCollectionSecretWithEncryptionKeyFinalise env st1 secret.collectionName
      secretAlreadyExistsFlag hashedSecretName env.pluginSetSecretResult
      (tr ++ [Event.pluginSetSecret collectionStoragePluginName
        secret.collectionName hashedSecretName])

/-- Embedding of
`RequestProcessor::setCollectionSecretWithEncryptionKey`. -/
def setCollectionSecretWithEncryptionKey (env : Env) (st : PState)
    (secret : Identifier)
    (collectionStoragePluginName collectionEncryptionPluginName : String)
    (encryptionKey : Bytes) (tr : List Event) : AsyncStep :=
  let hashedSecretName :=
    generateHashedSecretName secret.collectionName secret.name
  let ex := env.secretAlreadyExists secret.collectionName hashedSecretName
  let tr0 := tr ++ [Event.bkdbSecretExists secret.collectionName hashedSecretName]
  if ex.1.code != ResultCode.Succeeded then
    ⟨ex.1, st, tr0⟩
  else if !ex.2 then
    -- write to the master database prior to the storage plugin
    let tr1 := tr0 ++ [Event.bkdbInsertSecret secret.collectionName hashedSecretName]
    if env.insertSecretResult.code != ResultCode.Succeeded then
      ⟨env.insertSecretResult, st, tr1⟩
    else
      setCollectionSecretDispatch env st secret collectionStoragePluginName
        collectionEncryptionPluginName false hashedSecretName encryptionKey tr1
  else
    setCollectionSecretDispatch env st secret collectionStoragePluginName
      collectionEncryptionPluginName true hashedSecretName encryptionKey tr0

/-- Embedding of
`RequestProcessor::setCollectionSecretGetAuthenticationCode`. -/
def setCollectionSecretGetAuthenticationCode (env : Env) (st : PState)
    (secret : Identifier) (userInteractionMode : UserInteractionMode)
    (m : CollectionMetadata) (tr : List Event) : Step :=
  if m.storagePluginName == m.encryptionPluginName then
    let lk := env.pluginIsCollectionLocked secret.collectionName
    let tr1 := tr ++ [Event.pluginIsCollectionLocked m.storagePluginName secret.collectionName]
    if lk.1.code != ResultCode.Succeeded then
      Step.ret lk.1 st tr1
    else if !lk.2 then
      (setCollectionSecretWithEncryptionKey env st secret m.storagePluginName
        m.encryptionPluginName [] tr1).toStep
    else if m.usesDeviceLockKey then
      Step.ret (Result.err ErrorCode.CollectionIsLockedError
        "Collection is locked and requires device lock authentication") st tr1
    else if userInteractionMode == UserInteractionMode.PreventInteraction then
      Step.ret (Result.err ErrorCode.OperationRequiresUserInteraction
        "Authentication plugin requires user interaction") st tr1
    else
      let tr2 := tr1 ++ [Event.beginUserInput]
      if env.beginUserInputResult.code == ResultCode.Failed then
        Step.ret env.beginUserInputResult st tr2
      else
        ⟨Result.pendingResult, none, st, tr2⟩
  else
    if mapContains st.collectionEncryptionKeys secret.collectionName then
      (setCollectionSecretWithEncryptionKey env st secret m.storagePluginName
        m.encryptionPluginName
        (mapValue st.collectionEncryptionKeys secret.collectionName) tr).toStep
    else if m.usesDeviceLockKey then
      Step.ret (Result.err ErrorCode.CollectionIsLockedError
        "Collection is locked and requires device lock authentication") st tr
    else if userInteractionMode == UserInteractionMode.PreventInteraction then
      Step.ret (Result.err ErrorCode.OperationRequiresUserInteraction
        "Authentication plugin requires user interaction") st tr
    else
      let tr2 := tr ++ [Event.beginUserInput]
      if env.beginUserInputResult.code == ResultCode.Failed then
        Step.ret env.beginUserInputResult st tr2
      else
        ⟨Result.pendingResult, none, st, tr2⟩

/-- Embedding of `RequestProcessor::setCollectionSecret` (the entry
point of the store-secret flow). -/
def setCollectionSecret (env : Env) (st : PState) (secret : Identifier)
    (uiParams : InteractionParams) (userInteractionMode : UserInteractionMode) : Step :=
  if secret.name.isEmpty then
    Step.ret (Result.err ErrorCode.InvalidSecretError "Empty secret name given") st []
  else if secret.collectionName.isEmpty then
    Step.ret (Result.err ErrorCode.InvalidCollectionError "Empty collection name given") st []
  else if eqCI secret.collectionName "standalone" then
    Step.ret (Result.err ErrorCode.InvalidCollectionError "Reserved collection name given") st []
  else
    let md := env.collectionMetadata secret.collectionName
    let tr0 := [Event.bkdbCollectionMetadata secret.collectionName]
    if md.1.code != ResultCode.Succeeded then
      Step.ret md.1 st tr0
    else
      match md.2 with
      | none =>
        Step.ret (Result.err ErrorCode.InvalidCollectionError
          "Nonexistent collection name given") st tr0
      | some m =>
        if m.accessControlMode == AccessControlMode.SystemAccessControlMode then
          Step.ret (Result.err ErrorCode.OperationNotSupportedError
            "Access control requests are not currently supported. TODO!") st tr0
        else if m.accessControlMode == AccessControlMode.OwnerOnlyMode
            && m.applicationId != callerApplicationId env then
          Step.ret (Result.err ErrorCode.PermissionsError
            "Collection is owned by a different application") st tr0
        else if m.storagePluginName == m.encryptionPluginName
            && !(env.encryptedStoragePlugins.contains m.storagePluginName) then
          Step.ret (Result.err ErrorCode.InvalidExtensionPluginError
            "No such encrypted storage plugin exists") st tr0
        else if m.storagePluginName != m.encryptionPluginName
            && (m.storagePluginName.isEmpty
                || !(env.storagePlugins.contains m.storagePluginName)) then
          Step.ret (Result.err ErrorCode.InvalidExtensionPluginError
            "No such storage plugin exists") st tr0
        else if m.storagePluginName != m.encryptionPluginName
            && (m.encryptionPluginName.isEmpty
                || !(env.encryptionPlugins.contains m.encryptionPluginName)) then
          Step.ret (Result.err ErrorCode.InvalidExtensionPluginError
            "No such encryption plugin exists") st tr0
        else if !uiParams.valid then
          -- secret data fully specified; store it directly
          setCollectionSecretGetAuthenticationCode env st secret
            userInteractionMode m tr0
        else
          -- asynchronous request to retrieve the secret data from the user
          let userInputPlugin := userInputPluginName env uiParams.authenticationPluginName
          if !(env.authenticationPlugins.contains userInputPlugin) then
            Step.ret (Result.err ErrorCode.InvalidExtensionPluginError
              "Cannot get user input from invalid authentication plugin") st tr0
          else
            let tr1 := tr0 ++ [Event.beginUserInput]
            if env.beginUserInputResult.code == ResultCode.Failed then
              Step.ret env.beginUserInputResult st tr1
            else
              ⟨Result.pendingResult, none, st, tr1⟩

/-- Embedding of
`RequestProcessor::getCollectionSecretWithEncryptionKey`. -/
def getCollectionSecretWithEncryptionKey (env : Env) (st : PState)
    (identifier : Identifier) (storagePluginName encryptionPluginName : String)
    (collectionUnlockSemantic : UnlockSemantic) (collectionCustomLockTimeoutMs : Nat)
    (encryptionKey : Bytes) (tr : List Event) : AsyncStep :=
  let st1 :=
    if collectionUnlockSemantic == UnlockSemantic.CustomLockTimoutRelock
        && !(mapContains st.collectionLockTimers identifier.collectionName) then
      { st with collectionLockTimers :=
          (mapInsert st.collectionLockTimers identifier.collectionName
            collectionCustomLockTimeoutMs) }
    else st
  let hashedSecretName :=
    generateHashedSecretName identifier.collectionName identifier.name
  if storagePluginName == encryptionPluginName then
    ⟨env.pluginGetSecretResult, st1,
      tr ++ [Event.pluginGetSecret storagePluginName identifier.collectionName
        hashedSecretName]⟩
  else
    let st2 :=
      if !(mapContains st1.collectionEncryptionKeys identifier.collectionName) then
        { st1 with collectionEncryptionKeys :=
            mapInsert st1.collectionEncryptionKeys identifier.collectionName encryptionKey }
      else st1
    ⟨env.pluginGetSecretResult, st2,
      tr ++ [Event.pluginGetSecret storagePluginName identifier.collectionName
        hashedSecretName]⟩

/-- Embedding of `RequestProcessor::getCollectionSecret`. -/
def getCollectionSecret (env : Env) (st : PState) (identifier : Identifier)
    (userInteractionMode : UserInteractionMode)
    (interactionServiceAddress : String) : Step :=
  if identifier.name.isEmpty then
    Step.ret (Result.err ErrorCode.InvalidSecretError "Empty secret name given") st []
  else if identifier.collectionName.isEmpty then
    Step.ret (Result.err ErrorCode.InvalidCollectionError "Empty collection name given") st []
  else if eqCI identifier.collectionName "standalone" then
    Step.ret (Result.err ErrorCode.InvalidCollectionError "Reserved collection name given") st []
  else
    let md := env.collectionMetadata identifier.collectionName
    let tr0 := [Event.bkdbCollectionMetadata identifier.collectionName]
    if md.1.code != ResultCode.Succeeded then
      Step.ret md.1 st tr0
    else
      match md.2 with
      | none =>
        Step.ret (Result.err ErrorCode.InvalidCollectionError
          "Nonexistent collection name given") st tr0
      | some m =>
        if m.storagePluginName == m.encryptionPluginName
            && !(env.encryptedStoragePlugins.contains m.storagePluginName) then
          Step.ret (Result.err ErrorCode.InvalidExtensionPluginError
            "No such encrypted storage plugin exists") st tr0
        else if m.storagePluginName != m.encryptionPluginName
            && !(env.storagePlugins.contains m.storagePluginName) then
          Step.ret (Result.err ErrorCode.InvalidExtensionPluginError
            "No such storage plugin exists") st tr0
        else if m.storagePluginName != m.encryptionPluginName
            && !(env.encryptionPlugins.contains m.encryptionPluginName) then
          Step.ret (Result.err ErrorCode.InvalidExtensionPluginError
            "No such encryption plugin exists") st tr0
        else if m.accessControlMode == AccessControlMode.SystemAccessControlMode then
          Step.ret (Result.err ErrorCode.OperationNotSupportedError
            "Access control requests are not currently supported. TODO!") st tr0
        else if m.accessControlMode == AccessControlMode.OwnerOnlyMode
            && m.applicationId != callerApplicationId env then
          Step.ret (Result.err ErrorCode.PermissionsError
            "Collection is owned by a different application") st tr0
        else if !(env.authenticationPlugins.contains m.authenticationPluginName) then
          Step.ret (Result.err ErrorCode.InvalidExtensionPluginError
            "No such authentication plugin available") st tr0
        else if m.storagePluginName == m.encryptionPluginName then
          let lk := env.pluginIsCollectionLocked identifier.collectionName
          let tr1 := tr0 ++ [Event.pluginIsCollectionLocked m.storagePluginName
            identifier.collectionName]
          if lk.1.code != ResultCode.Succeeded then
            Step.ret lk.1 st tr1
          else if lk.2 then
            if m.usesDeviceLockKey then
              Step.ret (Result.err ErrorCode.CollectionIsLockedError
                "Collection is locked and requires device lock authentication") st tr1
            else if userInteractionMode == UserInteractionMode.PreventInteraction then
              Step.ret (Result.err ErrorCode.OperationRequiresUserInteraction
                "Authentication plugin requires user interaction") st tr1
            else if env.authenticationTypesAppSpecific m.authenticationPluginName
                && (userInteractionMode != UserInteractionMode.ApplicationInteraction
                    || interactionServiceAddress.isEmpty) then
              Step.ret (Result.err ErrorCode.OperationRequiresApplicationUserInteraction
                "Authentication plugin requires in-process user interaction") st tr1
            else
              let tr2 := tr1 ++ [Event.beginUserInput]
              if env.beginUserInputResult.code == ResultCode.Failed then
                Step.ret env.beginUserInputResult st tr2
              else
                ⟨Result.pendingResult, none, st, tr2⟩
          else
            (getCollectionSecretWithEncryptionKey env st identifier
              m.storagePluginName m.encryptionPluginName m.unlockSemantic
              m.customLockTimeoutMs [] tr1).toStep
        else
          if !(mapContains st.collectionEncryptionKeys identifier.collectionName) then
            if m.usesDeviceLockKey then
              Step.ret (Result.err ErrorCode.CollectionIsLockedError
                "Collection is locked and requires device lock authentication") st tr0
            else if userInteractionMode == UserInteractionMode.PreventInteraction then
              Step.ret (Result.err ErrorCode.OperationRequiresUserInteraction
                "Authentication plugin requires user interaction") st tr0
            else if env.authenticationTypesAppSpecific m.authenticationPluginName
                && (userInteractionMode != UserInteractionMode.ApplicationInteraction
                    || interactionServiceAddress.isEmpty) then
              Step.ret (Result.err ErrorCode.OperationRequiresApplicationUserInteraction
                "Authentication plugin requires in-process user interaction") st tr0
            else
              let tr2 := tr0 ++ [Event.beginUserInput]
              if env.beginUserInputResult.code == ResultCode.Failed then
                Step.ret env.beginUserInputResult st tr2
              else
                ⟨Result.pendingResult, none, st, tr2⟩
          else
            (getCollectionSecretWithEncryptionKey env st identifier
              m.storagePluginName m.encryptionPluginName m.unlockSemantic
              m.customLockTimeoutMs
              (mapValue st.collectionEncryptionKeys identifier.collectionName) tr0).toStep

/-- Filter map attached to a secret (string to string). -/
abbrev FilterData := List (String × String)

/-- Filter operators applied to key=value pairs. -/
inductive FilterOperator
  | OperatorOr
  | OperatorAnd
deriving DecidableEq, Repr

/-- Embedding of
`RequestProcessor::findCollectionSecretsWithEncryptionKey`. -/
def findCollectionSecretsWithEncryptionKey (env : Env) (st : PState)
    (collectionName : String) (storagePluginName encryptionPluginName : String)
    (collectionUnlockSemantic : UnlockSemantic) (collectionCustomLockTimeoutMs : Nat)
    (encryptionKey : Bytes) (tr : List Event) : AsyncStep :=
  let st1 :=
    if collectionUnlockSemantic == UnlockSemantic.CustomLockTimoutRelock
        && !(mapContains st.collectionLockTimers collectionName) then
      { st with collectionLockTimers :=
          (mapInsert st.collectionLockTimers collectionName
            collectionCustomLockTimeoutMs) }
    else st
  if storagePluginName == encryptionPluginName then
    ⟨env.pluginFindSecretsResult, st1,
      tr ++ [Event.pluginFindSecrets storagePluginName collectionName]⟩
  else
    let st2 :=
      if !(mapContains st1.collectionEncryptionKeys collectionName) then
        { st1 with collectionEncryptionKeys :=
            (mapInsert st1.collectionEncryptionKeys collectionName encryptionKey) }
      else st1
    ⟨env.pluginFindSecretsResult, st2,
      tr ++ [Event.pluginFindSecrets storagePluginName collectionName]⟩

/-- Embedding of `RequestProcessor::findCollectionSecrets`. -/
def findCollectionSecrets (env : Env) (st : PState) (collectionName : String)
    (filter : FilterData) (_filterOperator : FilterOperator)
    (userInteractionMode : UserInteractionMode)
    (interactionServiceAddress : String) : Step :=
  if collectionName.isEmpty then
    Step.ret (Result.err ErrorCode.InvalidCollectionError "Empty collection name given") st []
  else if eqCI collectionName "standalone" then
    Step.ret (Result.err ErrorCode.InvalidCollectionError "Reserved collection name given") st []
  else if filter.isEmpty then
    Step.ret (Result.err ErrorCode.InvalidFilterError "Empty filter given") st []
  else
    let md := env.collectionMetadata collectionName
    let tr0 := [Event.bkdbCollectionMetadata collectionName]
    if md.1.code != ResultCode.Succeeded then
      Step.ret md.1 st tr0
    else
      match md.2 with
      | none =>
        Step.ret (Result.err ErrorCode.InvalidCollectionError
          "Nonexistent collection name given") st tr0
      | some m =>
        if m.storagePluginName == m.encryptionPluginName
            && !(env.encryptedStoragePlugins.contains m.storagePluginName) then
          Step.ret (Result.err ErrorCode.InvalidExtensionPluginError
            "No such encrypted storage plugin exists") st tr0
        else if m.storagePluginName != m.encryptionPluginName
            && !(env.storagePlugins.contains m.storagePluginName) then
          Step.ret (Result.err ErrorCode.InvalidExtensionPluginError
            "No such storage plugin exists") st tr0
        else if m.storagePluginName != m.encryptionPluginName
            && !(env.encryptionPlugins.contains m.encryptionPluginName) then
          Step.ret (Result.err ErrorCode.InvalidExtensionPluginError
            "No such encryption plugin exists") st tr0
        else if m.accessControlMode == AccessControlMode.SystemAccessControlMode then
          Step.ret (Result.err ErrorCode.OperationNotSupportedError
            "Access control requests are not currently supported. TODO!") st tr0
        else if m.accessControlMode == AccessControlMode.OwnerOnlyMode
            && m.applicationId != callerApplicationId env then
          Step.ret (Result.err ErrorCode.PermissionsError
            "Collection is owned by a different application") st tr0
        else if !(env.authenticationPlugins.contains m.authenticationPluginName) then
          Step.ret (Result.err ErrorCode.InvalidExtensionPluginError
            "No such authentication plugin available") st tr0
        else if m.storagePluginName == m.encryptionPluginName then
          let lk := env.pluginIsCollectionLocked collectionName
          let tr1 := tr0 ++ [Event.pluginIsCollectionLocked m.storagePluginName collectionName]
          if lk.1.code != ResultCode.Succeeded then
            Step.ret lk.1 st tr1
          else if lk.2 then
            if m.usesDeviceLockKey then
              Step.ret (Result.err ErrorCode.CollectionIsLockedError
                "Collection is locked and requires device lock authentication") st tr1
            else if userInteractionMode == UserInteractionMode.PreventInteraction then
              Step.ret (Result.err ErrorCode.OperationRequiresUserInteraction
                "Authentication plugin requires user interaction") st tr1
            else if env.authenticationTypesAppSpecific m.authenticationPluginName
                && (userInteractionMode != UserInteractionMode.ApplicationInteraction
                    || interactionServiceAddress.isEmpty) then
              Step.ret (Result.err ErrorCode.OperationRequiresApplicationUserInteraction
                "Authentication plugin requires in-process user interaction") st tr1
            else
              let tr2 := tr1 ++ [Event.beginUserInput]
              if env.beginUserInputResult.code == ResultCode.Failed then
                Step.ret env.beginUserInputResult st tr2
              else
                ⟨Result.pendingResult, none, st, tr2⟩
          else
            (findCollectionSecretsWithEncryptionKey env st collectionName
              m.storagePluginName m.encryptionPluginName m.unlockSemantic
              m.customLockTimeoutMs [] tr1).toStep
        else
          if !(mapContains st.collectionEncryptionKeys collectionName) then
            if m.usesDeviceLockKey then
              Step.ret (Result.err ErrorCode.CollectionIsLockedError
                "Collection is locked and requires device lock authentication") st tr0
            else if userInteractionMode == UserInteractionMode.PreventInteraction then
              Step.ret (Result.err ErrorCode.OperationRequiresUserInteraction
                "Authentication plugin requires user interaction") st tr0
            else if env.authenticationTypesAppSpecific m.authenticationPluginName
                && (userInteractionMode != UserInteractionMode.ApplicationInteraction
                    || interactionServiceAddress.isEmpty) then
              Step.ret (Result.err ErrorCode.OperationRequiresApplicationUserInteraction
                "Authentication plugin requires in-process user interaction") st tr0
            else
              let tr2 := tr0 ++ [Event.beginUserInput]
              if env.beginUserInputResult.code == ResultCode.Failed then
                Step.ret env.beginUserInputResult st tr2
              else
                ⟨Result.pendingResult, none, st, tr2⟩
          else
            (findCollectionSecretsWithEncryptionKey env st collectionName
              m.storagePluginName m.encryptionPluginName m.unlockSemantic
              m.customLockTimeoutMs
              (mapValue st.collectionEncryptionKeys collectionName) tr0).toStep

/-- Embedding of
`RequestProcessor::deleteCollectionSecretWithEncryptionKey` (only the
part past the re-validation, which re-reads the collection row). -/
def deleteCollectionSecretWithEncryptionKey (env : Env) (st : PState)
    (identifier : Identifier) (encryptionKey : Bytes) (tr : List Event) : AsyncStep :=
  let md := env.collectionMetadata identifier.collectionName
  let tr0 := tr ++ [Event.bkdbCollectionMetadata identifier.collectionName]
  if md.1.code != ResultCode.Succeeded then
    ⟨md.1, st, tr0⟩
  else
    match md.2 with
    | none =>
      ⟨Result.err ErrorCode.InvalidCollectionError "Nonexistent collection name given",
        st, tr0⟩
    | some m =>
      if m.usesDeviceLockKey && encryptionKey != env.deviceLockKey then
        ⟨Result.err ErrorCode.IncorrectAuthenticationCodeError
          "Incorrect device lock key provided", st, tr0⟩
      else if m.accessControlMode == AccessControlMode.SystemAccessControlMode then
        ⟨Result.err ErrorCode.OperationNotSupportedError
          "Access control requests are not currently supported. TODO!", st, tr0⟩
      else if m.accessControlMode == AccessControlMode.OwnerOnlyMode
          && m.applicationId != callerApplicationId env then
        ⟨Result.err ErrorCode.PermissionsError
          "Collection is owned by a different application", st, tr0⟩
      else
        let hashedSecretName :=
          generateHashedSecretName identifier.collectionName identifier.name
        let st1 :=
          if m.storagePluginName != m.encryptionPluginName
              && !(mapContains st.collectionEncryptionKeys identifier.collectionName) then
            { st with collectionEncryptionKeys :=
                (mapInsert st.collectionEncryptionKeys identifier.collectionName
                  encryptionKey) }
          else st
        let tr1 := tr0 ++ [Event.pluginRemoveSecret m.storagePluginName
          identifier.collectionName hashedSecretName]
        let pluginResult := env.pluginRemoveSecretResult
        if pluginResult.code == ResultCode.Succeeded then
          let tr2 := tr1 ++ [Event.bkdbDeleteSecret identifier.collectionName hashedSecretName]
          if env.deleteSecretResult.code != ResultCode.Succeeded then
            ⟨env.deleteSecretResult, st1, tr2⟩
          else
            ⟨pluginResult, st1, tr2⟩
        else
          ⟨pluginResult, st1, tr1⟩

/-- Embedding of `RequestProcessor::deleteCollectionSecret`. -/
def deleteCollectionSecret (env : Env) (st : PState) (identifier : Identifier)
    (userInteractionMode : UserInteractionMode)
    (_interactionServiceAddress : String) : Step :=
  if identifier.name.isEmpty then
    Step.ret (Result.err ErrorCode.InvalidSecretError "Empty secret name given") st []
  else if identifier.collectionName.isEmpty then
    Step.ret (Result.err ErrorCode.InvalidCollectionError "Empty collection name given") st []
  else if eqCI identifier.collectionName "standalone" then
    Step.ret (Result.err ErrorCode.InvalidCollectionError "Reserved collection name given") st []
  else
    let md := env.collectionMetadata identifier.collectionName
    let tr0 := [Event.bkdbCollectionMetadata identifier.collectionName]
    if md.1.code != ResultCode.Succeeded then
      Step.ret md.1 st tr0
    else
      match md.2 with
      | none =>
        Step.ret (Result.err ErrorCode.InvalidCollectionError
          "Nonexistent collection name given") st tr0
      | some m =>
        if m.accessControlMode == AccessControlMode.SystemAccessControlMode then
          Step.ret (Result.err ErrorCode.OperationNotSupportedError
            "Access control requests are not currently supported. TODO!") st tr0
        else if m.accessControlMode == AccessControlMode.OwnerOnlyMode
            && m.applicationId != callerApplicationId env then
          Step.ret (Result.err ErrorCode.PermissionsError
            "Collection is owned by a different application") st tr0
        else if m.storagePluginName == m.encryptionPluginName
            && !(env.encryptedStoragePlugins.contains m.storagePluginName) then
          Step.ret (Result.err ErrorCode.InvalidExtensionPluginError
            "No such encrypted storage plugin exists") st tr0
        else if m.storagePluginName != m.encryptionPluginName
            && (m.storagePluginName.isEmpty
                || !(env.storagePlugins.contains m.storagePluginName)) then
          Step.ret (Result.err ErrorCode.InvalidExtensionPluginError
            "No such storage plugin exists") st tr0
        else if m.storagePluginName != m.encryptionPluginName
            && (m.encryptionPluginName.isEmpty
                || !(env.encryptionPlugins.contains m.encryptionPluginName)) then
          Step.ret (Result.err ErrorCode.InvalidExtensionPluginError
            "No such encryption plugin exists") st tr0
        else if m.storagePluginName == m.encryptionPluginName then
          let lk := env.pluginIsCollectionLocked identifier.collectionName
          let tr1 := tr0 ++ [Event.pluginIsCollectionLocked m.storagePluginName
            identifier.collectionName]
          if lk.1.code != ResultCode.Succeeded then
            Step.ret lk.1 st tr1
          else if lk.2 then
            if m.usesDeviceLockKey then
              Step.ret (Result.err ErrorCode.CollectionIsLockedError
                "Collection is locked and requires device lock authentication") st tr1
            else if userInteractionMode == UserInteractionMode.PreventInteraction then
              Step.ret (Result.err ErrorCode.OperationRequiresUserInteraction
                "Authentication plugin requires user interaction") st tr1
            else
              let tr2 := tr1 ++ [Event.beginUserInput]
              if env.beginUserInputResult.code == ResultCode.Failed then
                Step.ret env.beginUserInputResult st tr2
              else
                ⟨Result.pendingResult, none, st, tr2⟩
          else
            (deleteCollectionSecretWithEncryptionKey env st identifier
              env.deviceLockKey tr1).toStep
        else
          if !(mapContains st.collectionEncryptionKeys identifier.collectionName) then
            if m.usesDeviceLockKey then
              Step.ret (Result.err ErrorCode.CollectionIsLockedError
                "Collection is locked and requires device lock authentication") st tr0
            else if userInteractionMode == UserInteractionMode.PreventInteraction then
              Step.ret (Result.err ErrorCode.OperationRequiresUserInteraction
                "Authentication plugin requires user interaction") st tr0
            else
              let tr2 := tr0 ++ [Event.beginUserInput]
              if env.beginUserInputResult.code == ResultCode.Failed then
                Step.ret env.beginUserInputResult st tr2
              else
                ⟨Result.pendingResult, none, st, tr2⟩
          else
            (deleteCollectionSecretWithEncryptionKey env st identifier
              (mapValue st.collectionEncryptionKeys identifier.collectionName) tr0).toStep

/-- Embedding of
`RequestProcessor::writeStandaloneDeviceLockSecretFinalise`. -/
def writeStandaloneDeviceLockSecretFinalise (env : Env) (st : PState)
    (storagePluginName encryptionPluginName collectionName hashedSecretName : String)
    (foundFlag : Bool) (pluginResult : Result) (tr : List Event) : AsyncStep :=
  if pluginResult.code == ResultCode.Failed then
    if !foundFlag then
      let cleanupResult := env.cleanupDeleteSecretResult
      let returnResult :=
        if cleanupResult.code != ResultCode.Succeeded then cleanupResult else pluginResult
      ⟨returnResult, st, tr ++ [Event.bkdbCleanupDeleteSecret collectionName hashedSecretName]⟩
    else
      ⟨pluginResult, st, tr⟩
  else if storagePluginName != encryptionPluginName then
    ⟨pluginResult,
      { st with standaloneSecretEncryptionKeys :=
          (mapInsert st.standaloneSecretEncryptionKeys hashedSecretName
            env.deviceLockKey) }, tr⟩
  else
    ⟨pluginResult, st, tr⟩

/-- Embedding of
`RequestProcessor::writeStandaloneDeviceLockSecret`. -/
def writeStandaloneDeviceLockSecret (env : Env) (st : PState)
    (storagePluginName encryptionPluginName : String) (_secret : Identifier)
    (collectionName hashedSecretName : String) (foundFlag : Bool) : Step :=
  -- write to the master database prior to the storage plugin
  let tr0 :=
    if foundFlag then [Event.bkdbUpdateSecret collectionName hashedSecretName]
    else [Event.bkdbInsertSecret collectionName hashedSecretName]
  let insertUpdateResult :=
    if foundFlag then env.updateSecretResult else env.insertSecretResult
  if insertUpdateResult.code != ResultCode.Succeeded then
    Step.ret insertUpdateResult st tr0
  else
    let tr1 := tr0 ++ [Event.pluginSetSecret storagePluginName collectionName hashedSecretName]
    (writeStandaloneDeviceLockSecretFinalise env st storagePluginName
      encryptionPluginName collectionName hashedSecretName foundFlag
      env.pluginSetSecretResult tr1).toStep

/-- Shared tail of `RequestProcessor::setStandaloneDeviceLockSecret`
after the row checks: store directly or request the secret data from
the user. -/
def setStandaloneDeviceLockSecretContinue (env : Env) (st : PState)
    (storagePluginName encryptionPluginName : String) (secret : Identifier)
    (uiParams : InteractionParams) (collectionName hashedSecretName : String)
    (foundFlag : Bool) (tr : List Event) : Step :=
  if !uiParams.valid then
    let w := writeStandaloneDeviceLockSecret env st storagePluginName
      encryptionPluginName secret collectionName hashedSecretName foundFlag
    ⟨w.sync, w.final, w.st, tr ++ w.tr⟩
  else
    let userInputPlugin := userInputPluginName env uiParams.authenticationPluginName
    if !(env.authenticationPlugins.contains userInputPlugin) then
      Step.ret (Result.err ErrorCode.InvalidExtensionPluginError
        "Cannot get user input from invalid authentication plugin") st tr
    else
      let tr1 := tr ++ [Event.beginUserInput]
      if env.beginUserInputResult.code == ResultCode.Failed then
        Step.ret env.beginUserInputResult st tr1
      else
        ⟨Result.pendingResult, none, st, tr1⟩

/-- Embedding of `RequestProcessor::setStandaloneDeviceLockSecret`. -/
def setStandaloneDeviceLockSecret (env : Env) (st : PState)
    (storagePluginName encryptionPluginName : String) (secret : Identifier)
    (uiParams : InteractionParams) (_unlockSemantic : UnlockSemantic)
    (_accessControlMode : AccessControlMode)
    (_userInteractionMode : UserInteractionMode) : Step :=
  if secret.name.isEmpty then
    Step.ret (Result.err ErrorCode.InvalidSecretError "Empty secret name given") st []
  else if storagePluginName == encryptionPluginName
      && !(env.encryptedStoragePlugins.contains storagePluginName) then
    Step.ret (Result.err ErrorCode.InvalidExtensionPluginError
      "No such encrypted storage plugin exists") st []
  else if storagePluginName != encryptionPluginName
      && !(env.storagePlugins.contains storagePluginName) then
    Step.ret (Result.err ErrorCode.InvalidExtensionPluginError
      "No such storage plugin exists") st []
  else if storagePluginName != encryptionPluginName
      && !(env.encryptionPlugins.contains encryptionPluginName) then
    Step.ret (Result.err ErrorCode.InvalidExtensionPluginError
      "No such encryption plugin exists") st []
  else
    let collectionName := "standalone"
    let hashedSecretName := generateHashedSecretName collectionName secret.name
    let md := env.secretMetadata collectionName hashedSecretName
    let tr0 := [Event.bkdbSecretMetadata collectionName hashedSecretName]
    if md.1.code != ResultCode.Succeeded then
      Step.ret md.1 st tr0
    else
      match md.2 with
      | some srow =>
        if srow.accessControlMode == AccessControlMode.SystemAccessControlMode then
          Step.ret (Result.err ErrorCode.OperationNotSupportedError
            "Access control requests are not currently supported. TODO!") st tr0
        else if srow.accessControlMode == AccessControlMode.OwnerOnlyMode
            && srow.applicationId != callerApplicationId env then
          Step.ret (Result.err ErrorCode.PermissionsError
            "Secret is owned by a different application") st tr0
        else if srow.usesDeviceLockKey == false then
          -- do not change a custom-lock secret into a device-lock secret
          Step.ret (Result.err ErrorCode.OperationNotSupportedError
            "Secret already exists and is not a devicelock protected secret") st tr0
        else if !(eqCI srow.storagePluginName storagePluginName) then
          -- do not change which plugin the secret is stored in
          Step.ret (Result.err ErrorCode.OperationNotSupportedError
            "Secret already exists and is not stored via that plugin") st tr0
        else
          setStandaloneDeviceLockSecretContinue env st storagePluginName
            encryptionPluginName secret uiParams collectionName hashedSecretName
            true tr0
      | none =>
        setStandaloneDeviceLockSecretContinue env st storagePluginName
          encryptionPluginName secret uiParams collectionName hashedSecretName
          false tr0

/-- Shared tail of `RequestProcessor::setStandaloneCustomLockSecret`
after the row checks: the remaining interaction-mode guards, then the
passphrase or secret-data user-input flow (both suspend). -/
def setStandaloneCustomLockSecretContinue (env : Env) (st : PState)
    (authenticationPluginName : String) (uiParams : InteractionParams)
    (userInteractionMode : UserInteractionMode)
    (interactionServiceAddress : String) (tr : List Event) : Step :=
  if env.authenticationTypesAppSpecific authenticationPluginName
      && (userInteractionMode != UserInteractionMode.ApplicationInteraction
          || interactionServiceAddress.isEmpty) then
    Step.ret (Result.err ErrorCode.OperationRequiresApplicationUserInteraction
      "Authentication plugin requires in-process user interaction") st tr
  else if userInteractionMode == UserInteractionMode.PreventInteraction then
    Step.ret (Result.err ErrorCode.OperationRequiresUserInteraction
      "Authentication plugin requires user interaction") st tr
  else if !uiParams.valid then
    -- get the authentication code (passphrase) from the user
    let tr1 := tr ++ [Event.beginUserInput]
    if env.beginUserInputResult.code == ResultCode.Failed then
      Step.ret env.beginUserInputResult st tr1
    else
      ⟨Result.pendingResult, none, st, tr1⟩
  else
    -- get the secret data from the user
    let userInputPlugin := userInputPluginName env uiParams.authenticationPluginName
    if !(env.authenticationPlugins.contains userInputPlugin) then
      Step.ret (Result.err ErrorCode.InvalidExtensionPluginError
        "Cannot get user input from invalid authentication plugin") st tr
    else
      let tr1 := tr ++ [Event.beginUserInput]
      if env.beginUserInputResult.code == ResultCode.Failed then
        Step.ret env.beginUserInputResult st tr1
      else
        ⟨Result.pendingResult, none, st, tr1⟩

/-- Embedding of `RequestProcessor::setStandaloneCustomLockSecret`. -/
def setStandaloneCustomLockSecret (env : Env) (st : PState)
    (storagePluginName encryptionPluginName authenticationPluginName : String)
    (secret : Identifier) (uiParams : InteractionParams)
    (_unlockSemantic : UnlockSemantic) (_customLockTimeoutMs : Nat)
    (_accessControlMode : AccessControlMode)
    (userInteractionMode : UserInteractionMode)
    (interactionServiceAddress : String) : Step :=
  if secret.name.isEmpty then
    Step.ret (Result.err ErrorCode.InvalidSecretError "Empty secret name given") st []
  else if storagePluginName == encryptionPluginName
      && !(env.encryptedStoragePlugins.contains storagePluginName) then
    Step.ret (Result.err ErrorCode.InvalidExtensionPluginError
      "No such encrypted storage plugin exists") st []
  else if storagePluginName != encryptionPluginName
      && !(env.storagePlugins.contains storagePluginName) then
    Step.ret (Result.err ErrorCode.InvalidExtensionPluginError
      "No such storage plugin exists") st []
  else if storagePluginName != encryptionPluginName
      && !(env.encryptionPlugins.contains encryptionPluginName) then
    Step.ret (Result.err ErrorCode.InvalidExtensionPluginError
      "No such encryption plugin exists") st []
  else
    let collectionName := "standalone"
    let hashedSecretName := generateHashedSecretName collectionName secret.name
    let md := env.secretMetadata collectionName hashedSecretName
    let tr0 := [Event.bkdbSecretMetadata collectionName hashedSecretName]
    if md.1.code != ResultCode.Succeeded then
      Step.ret md.1 st tr0
    else
      match md.2 with
      | some srow =>
        if srow.accessControlMode == AccessControlMode.SystemAccessControlMode then
          Step.ret (Result.err ErrorCode.OperationNotSupportedError
            "Access control requests are not currently supported. TODO!") st tr0
        else if srow.accessControlMode == AccessControlMode.OwnerOnlyMode
            && srow.applicationId != callerApplicationId env then
          Step.ret (Result.err ErrorCode.PermissionsError
            "Secret is owned by a different application") st tr0
        else if srow.usesDeviceLockKey == true then
          -- do not change a device-lock secret into a custom-lock secret
          Step.ret (Result.err ErrorCode.OperationNotSupportedError
            "Secret already exists and is not a devicelock protected secret") st tr0
        else if !(eqCI srow.storagePluginName storagePluginName) then
          -- do not change which plugin the secret is stored in
          Step.ret (Result.err ErrorCode.OperationNotSupportedError
            "Secret already exists and is not stored via that plugin") st tr0
        else
          setStandaloneCustomLockSecretContinue env st authenticationPluginName
            uiParams userInteractionMode interactionServiceAddress tr0
      | none =>
        setStandaloneCustomLockSecretContinue env st authenticationPluginName
          uiParams userInteractionMode interactionServiceAddress tr0

/-- Embedding of
`RequestProcessor::getStandaloneSecretWithEncryptionKey`.  The relock
timer is installed under the plain secret name (`identifier.name()`),
while the unlock key is cached under the hashed secret name. -/
def getStandaloneSecretWithEncryptionKey (env : Env) (st : PState)
    (identifier : Identifier) (storagePluginName encryptionPluginName : String)
    (secretUnlockSemantic : UnlockSemantic) (secretCustomLockTimeoutMs : Nat)
    (encryptionKey : Bytes) : AsyncStep :=
  let st1 :=
    if secretUnlockSemantic == UnlockSemantic.CustomLockTimoutRelock
        && !(mapContains st.standaloneSecretLockTimers identifier.name) then
      { st with standaloneSecretLockTimers :=
          (mapInsert st.standaloneSecretLockTimers identifier.name
            secretCustomLockTimeoutMs) }
    else st
  let collectionName := "standalone"
  let hashedSecretName := generateHashedSecretName collectionName identifier.name
  if storagePluginName == encryptionPluginName then
    ⟨env.pluginGetSecretResult, st1,
      [Event.pluginGetSecret storagePluginName collectionName hashedSecretName]⟩
  else
    let st2 :=
      if !(mapContains st1.standaloneSecretEncryptionKeys hashedSecretName) then
        { st1 with standaloneSecretEncryptionKeys :=
            (mapInsert st1.standaloneSecretEncryptionKeys hashedSecretName
              encryptionKey) }
      else st1
    ⟨env.pluginGetSecretResult, st2,
      [Event.pluginGetSecret storagePluginName collectionName hashedSecretName]⟩

/-- Embedding of `RequestProcessor::timeoutRelockCollection`: the slot
fired by a collection relock timer; `k` identifies the timer map entry
whose timer fired. -/
def timeoutRelockCollection (st : PState) (k : String) : PState :=
  if mapContains st.collectionLockTimers k then
    { st with
      collectionEncryptionKeys := mapRemove st.collectionEncryptionKeys k,
      collectionLockTimers := mapRemove st.collectionLockTimers k }
  else st

/-- Embedding of `RequestProcessor::timeoutRelockSecret`: the slot
fired by a standalone-secret relock timer; `k` identifies the timer
map entry whose timer fired.  The eviction removes the entry of the
key-cache map whose key equals the timer map entry's key. -/
def timeoutRelockSecret (st : PState) (k : String) : PState :=
  if mapContains st.standaloneSecretLockTimers k then
    { st with
      standaloneSecretEncryptionKeys := mapRemove st.standaloneSecretEncryptionKeys k,
      standaloneSecretLockTimers := mapRemove st.standaloneSecretLockTimers k }
  else st

/-- Embedding of `RequestProcessor::deleteStandaloneSecret`. -/
def deleteStandaloneSecret (env : Env) (st : PState)
    (identifier : Identifier) (_userInteractionMode : UserInteractionMode) : Step :=
  let collectionName := "standalone"
  let hashedSecretName := generateHashedSecretName collectionName identifier.name
  let md := env.secretMetadata collectionName hashedSecretName
  let tr0 := [Event.bkdbSecretMetadata collectionName hashedSecretName]
  if md.1.code != ResultCode.Succeeded then
    Step.ret md.1 st tr0
  else
    match md.2 with
    | none =>
      -- the secret does not exist; return success
      Step.ret Result.succeeded st tr0
    | some srow =>
      if srow.accessControlMode == AccessControlMode.SystemAccessControlMode then
        Step.ret (Result.err ErrorCode.OperationNotSupportedError
          "Access control requests are not currently supported. TODO!") st tr0
      else if srow.accessControlMode == AccessControlMode.OwnerOnlyMode
          && srow.applicationId != callerApplicationId env then
        Step.ret (Result.err ErrorCode.PermissionsError
          "Secret is owned by a different application") st tr0
      else if srow.storagePluginName == srow.encryptionPluginName
          && !(env.encryptedStoragePlugins.contains srow.storagePluginName) then
        Step.ret (Result.err ErrorCode.InvalidExtensionPluginError
          "No such encrypted storage plugin exists") st tr0
      else if srow.storagePluginName != srow.encryptionPluginName
          && !(env.storagePlugins.contains srow.storagePluginName) then
        Step.ret (Result.err ErrorCode.InvalidExtensionPluginError
          "No such storage plugin exists") st tr0
      else if srow.storagePluginName != srow.encryptionPluginName
          && !(env.encryptionPlugins.contains srow.encryptionPluginName) then
        Step.ret (Result.err ErrorCode.InvalidExtensionPluginError
          "No such encryption plugin exists") st tr0
      else
        let tr1 := tr0 ++ [Event.pluginRemoveSecret srow.storagePluginName
          collectionName hashedSecretName]
        let pluginResult := env.pluginRemoveSecretResult
        if pluginResult.code == ResultCode.Succeeded then
          let (st1, trCache) :=
            if srow.storagePluginName != srow.encryptionPluginName then
              ({ st with
                  standaloneSecretEncryptionKeys :=
                    mapRemove st.standaloneSecretEncryptionKeys hashedSecretName,
                  standaloneSecretLockTimers :=
                    mapRemove st.standaloneSecretLockTimers hashedSecretName },
                [Event.cacheRemoveStandaloneKey hashedSecretName])
            else (st, [])
          let tr2 := tr1 ++ trCache
            ++ [Event.bkdbDeleteSecret collectionName hashedSecretName]
          if env.deleteSecretResult.code != ResultCode.Succeeded then
            ⟨Result.pendingResult, some env.deleteSecretResult, st1, tr2⟩
          else
            ⟨Result.pendingResult, some pluginResult, st1, tr2⟩
        else
          ⟨Result.pendingResult, some pluginResult, st, tr1⟩

/-- One iteration of the device-locked-collection re-encryption sweep
of `modifyLockCodeWithLockCodes` (failures are logged, never abort). -/
def reencryptCollectionSweepEvents (env : Env) (cname : String) : List Event :=
  let md := env.collectionMetadata cname
  if md.1.code != ResultCode.Succeeded then
    [Event.bkdbCollectionMetadata cname]
  else
    match md.2 with
    | none => [Event.bkdbCollectionMetadata cname]
    | some m =>
      if !m.usesDeviceLockKey then
        [Event.bkdbCollectionMetadata cname]
      else if m.storagePluginName == m.encryptionPluginName then
        if env.encryptedStoragePlugins.contains m.storagePluginName then
          [Event.bkdbCollectionMetadata cname, Event.pluginReencryptCollection cname]
        else
          [Event.bkdbCollectionMetadata cname]
      else
        if env.encryptionPlugins.contains m.encryptionPluginName
            && env.storagePlugins.contains m.storagePluginName then
          [Event.bkdbCollectionMetadata cname, Event.pluginReencryptCollection cname]
        else
          [Event.bkdbCollectionMetadata cname]

/-- One iteration of the standalone device-lock-secret re-encryption
sweep of `modifyLockCodeWithLockCodes`. -/
def reencryptStandaloneSweepEvents (env : Env) (hsn : String) : List Event :=
  let md := env.secretMetadata "standalone" hsn
  if md.1.code != ResultCode.Succeeded then
    [Event.bkdbSecretMetadata "standalone" hsn]
  else
    match md.2 with
    | none => [Event.bkdbSecretMetadata "standalone" hsn]
    | some srow =>
      if !srow.usesDeviceLockKey then
        [Event.bkdbSecretMetadata "standalone" hsn]
      else if env.encryptionPlugins.contains srow.encryptionPluginName
          && env.storagePlugins.contains srow.storagePluginName then
        [Event.bkdbSecretMetadata "standalone" hsn,
          Event.pluginReencryptStandaloneSecret hsn]
      else
        [Event.bkdbSecretMetadata "standalone" hsn]

/-- The re-encryption sweep of `modifyLockCodeWithLockCodes` after the
bookkeeping database was successfully re-encrypted: re-encrypt
device-locked collections and standalone secrets, then broadcast the
master-lock refresh to the plugins. -/
def modifyLockCodeSweep (env : Env) (st : PState) (tr : List Event)
    (reencryptResult : Result) : Step :=
  let trCollections :=
    if env.collectionNamesResult.1.code == ResultCode.Succeeded then
      [Event.bkdbCollectionNames]
        ++ (env.collectionNamesResult.2.map (reencryptCollectionSweepEvents env)).flatten
    else
      [Event.bkdbCollectionNames]
  let trStandalone :=
    if env.hashedSecretNamesResult.1.code != ResultCode.Succeeded then
      [Event.bkdbHashedSecretNames "standalone"]
    else
      [Event.bkdbHashedSecretNames "standalone"]
        ++ (env.hashedSecretNamesResult.2.map (reencryptStandaloneSweepEvents env)).flatten
  Step.ret reencryptResult st
    (tr ++ trCollections ++ trStandalone ++ [Event.modifyMasterLockPlugins])

/-- Embedding of `RequestProcessor::modifyLockCodeWithLockCodes`. -/
def modifyLockCodeWithLockCodes (env : Env) (st : PState)
    (lockCodeTargetType : LockCodeTargetType) (lockCodeTarget : String)
    (oldLockCode newLockCode : Bytes) : Step :=
  if lockCodeTargetType == LockCodeTargetType.ExtensionPlugin then
    -- set the lock code for a named plugin
    if env.modifyLockPluginFound then
      Step.ret env.modifyLockPluginResult st []
    else if env.authenticationPlugins.contains lockCodeTarget then
      if !(env.supportsLocking lockCodeTarget) then
        Step.ret (Result.err ErrorCode.OperationNotSupportedError
          "Authentication plugin does not support locking") st []
      else if !(env.authPluginSetLockCodeOk lockCodeTarget) then
        Step.ret (Result.err ErrorCode.UnknownError
          "Failed to set the lock code for authentication plugin") st []
      else
        Step.ret Result.succeeded st []
    else
      Step.ret env.setLockCodeCryptoPluginResult st []
  else
    -- modifying the master lock code for the bookkeeping database
    if !(env.testLockCode oldLockCode) then
      Step.ret (Result.err ErrorCode.SecretsDaemonLockedError
        "The given old lock code was incorrect") st []
    else
      let initData :=
        if !env.bkdbIsInitialised then
          if env.initialiseOk oldLockCode then
            ({ st with keyInitCode := oldLockCode },
              [Event.initialiseKey oldLockCode], false)
          else
            (st, [Event.initialiseKey oldLockCode], true)
        else
          (st, ([] : List Event), false)
      if initData.2.2 then
        Step.ret (Result.err ErrorCode.UnknownError
          "Unable to initialise the database using the old lock code")
          initData.1 initData.2.1
      else
        let st1 := initData.1
        let tr1 := initData.2.1 ++ [Event.initialiseKey newLockCode]
        if !(env.initialiseOk newLockCode) then
          Step.ret (Result.err ErrorCode.UnknownError
            "Unable to initialise key data for re-encryption") st1 tr1
        else
          let st2 := { st1 with keyInitCode := newLockCode }
          let tr2 := tr1 ++ [Event.bkdbReencrypt]
          if env.reencryptResult.code != ResultCode.Succeeded then
            -- failed to re-encrypt, so try to restore our state
            let st3 :=
              if env.initialiseOk oldLockCode then
                { st2 with keyInitCode := oldLockCode }
              else st2
            Step.ret env.reencryptResult st3 (tr2 ++ [Event.initialiseKey oldLockCode])
          else
            let st4 := { st2 with noLockCode := newLockCode.isEmpty }
            modifyLockCodeSweep env st4 tr2 env.reencryptResult

/-- The 64-byte sentinel lock code used by `forgetLockCode` against the
bookkeeping database: the source builds it from four concatenated
string literals of sixteen `f` characters each. -/
def forgetLockCodeSentinel : Bytes :=
  ("ffffffffffffffff" ++ "ffffffffffffffff"
    ++ "ffffffffffffffff" ++ "ffffffffffffffff").data.map Char.toNat

/-- Embedding of `RequestProcessor::forgetLockCode`. -/
def forgetLockCode (env : Env) (st : PState)
    (lockCodeTargetType : LockCodeTargetType) (lockCodeTarget : String) : Step :=
  if lockCodeTargetType == LockCodeTargetType.StandaloneSecret then
    Step.ret (Result.err ErrorCode.OperationNotSupportedError
      "ForgetLockCode - standalone secret - TODO!") st []
  else if lockCodeTargetType == LockCodeTargetType.Collection then
    Step.ret (Result.err ErrorCode.OperationNotSupportedError
      "ForgetLockCode - collection - TODO!") st []
  else if lockCodeTargetType == LockCodeTargetType.ExtensionPlugin then
    if !env.applicationIsPlatformApplication then
      Step.ret (Result.err ErrorCode.PermissionsError
        "Only the system settings application can unlock the plugin") st []
    else if env.lockPluginFound then
      Step.ret env.lockPluginResult st []
    else if env.authenticationPlugins.contains lockCodeTarget then
      if !(env.supportsLocking lockCodeTarget) then
        Step.ret (Result.err ErrorCode.OperationNotSupportedError
          "Authentication plugin does not support locking") st []
      else if !(env.authPluginLockOk lockCodeTarget) then
        Step.ret (Result.err ErrorCode.UnknownError
          "Failed to lock authentication plugin") st []
      else
        Step.ret Result.succeeded st []
    else
      Step.ret env.lockCryptoPluginResult st []
  else
    if !env.applicationIsPlatformApplication then
      Step.ret (Result.err ErrorCode.PermissionsError
        "Only the system settings application can lock the secrets database") st []
    else if !lockCodeTarget.isEmpty then
      Step.ret (Result.err ErrorCode.OperationNotSupportedError
        "Invalid target name specified") st []
    else
      let tr0 := [Event.initialiseKey forgetLockCodeSentinel]
      if !(env.initialiseOk forgetLockCodeSentinel) then
        Step.ret (Result.err ErrorCode.UnknownError
          "Unable to re-initialise key data to lock the secrets database") st tr0
      else
        let st1 := { st with keyInitCode := forgetLockCodeSentinel }
        Step.ret env.bkdbLockResult st1
          (tr0 ++ [Event.bkdbLock, Event.masterLockPlugins])

/-!  Concrete fixtures used by witnesses and counterexamples.  The base
environment has every collaborator succeed, the registries hold one
plugin of each capability, and the caller is the non-platform
application `appA`. -/

/-- Base environment for concrete evaluations. -/
def baseEnv : Env where
  applicationIsPlatformApplication := false
  platformApplicationId := "platform"
  applicationIdOfCaller := "appA"
  autotestMode := false
  storagePlugins := ["store"]
  encryptionPlugins := ["enc"]
  encryptedStoragePlugins := ["encstore"]
  authenticationPlugins := ["auth"]
  authenticationTypesAppSpecific := fun _ => false
  beginUserInputResult := Result.succeeded
  collectionAlreadyExists := fun _ => (Result.succeeded, false)
  collectionMetadata := fun _ => (Result.succeeded, none)
  secretAlreadyExists := fun _ _ => (Result.succeeded, false)
  secretMetadata := fun _ _ => (Result.succeeded, none)
  collectionNamesResult := (Result.succeeded, [])
  hashedSecretNamesResult := (Result.succeeded, [])
  insertCollectionResult := Result.succeeded
  insertSecretResult := Result.succeeded
  updateSecretResult := Result.succeeded
  deleteCollectionResult := Result.succeeded
  deleteSecretResult := Result.succeeded
  cleanupDeleteCollectionResult := Result.succeeded
  cleanupDeleteSecretResult := Result.succeeded
  reencryptResult := Result.succeeded
  bkdbLockResult := Result.succeeded
  bkdbIsInitialised := true
  initialiseOk := fun _ => true
  testLockCode := fun _ => true
  deviceLockKey := [1, 2, 3]
  pluginCreateCollectionResult := Result.succeeded
  pluginRemoveCollectionResult := Result.succeeded
  pluginSetSecretResult := Result.succeeded
  pluginGetSecretResult := Result.succeeded
  pluginRemoveSecretResult := Result.succeeded
  pluginFindSecretsResult := Result.succeeded
  pluginIsCollectionLocked := fun _ => (Result.succeeded, false)
  deriveKeyFromCode := fun _ => (Result.succeeded, [9])
  pluginReencryptCollectionResult := fun _ => Result.succeeded
  pluginReencryptStandaloneSecretResult := fun _ => Result.succeeded
  modifyLockPluginFound := false
  modifyLockPluginResult := Result.succeeded
  supportsLocking := fun _ => false
  authPluginSetLockCodeOk := fun _ => true
  setLockCodeCryptoPluginResult := Result.succeeded
  lockPluginFound := false
  lockPluginResult := Result.succeeded
  authPluginLockOk := fun _ => true
  lockCryptoPluginResult := Result.succeeded

/-- Base processor state: empty caches, no busy collections. -/
def baseState : PState where
  collectionEncryptionKeys := []
  collectionLockTimers := []
  standaloneSecretEncryptionKeys := []
  standaloneSecretLockTimers := []
  busyCollections := []
  keyInitCode := []
  noLockCode := false

/-- Projecting the synchronous result of a wrapped asynchronous
continuation always yields `Pending`. -/
@[simp] theorem AsyncStep.toStep_sync (a : AsyncStep) :
    a.toStep.sync = Result.pendingResult := rfl

/-- Removing a key from a string-keyed map removes it from the map's
domain. -/
@[simp] theorem mapContains_mapRemove (m : List (String × α)) (k : String) :
    mapContains (mapRemove m k) k = false := by
  induction m with
  | nil => rfl
  | cons p rest ih =>
    by_cases h : p.1 = k
    · simp only [mapRemove] at ih ⊢
      simp [h, ih, mapRemove]
    · simp only [mapRemove] at ih ⊢
      simp [mapContains, h, ih, mapRemove] at ih ⊢

/-- Claim C2: `create_device_lock_collection` inserts and commits the
bookkeeping row before asking the plugin to create the collection (the
trace begins with the existence check, the busy mark, the row insert
and only then the plugin create); when the plugin create fails,
`cleanup_delete` runs on that row and the final result is the plugin's
error, except that a failing cleanup replaces it with the cleanup
error. -/
theorem createDeviceLockCollection_insert_then_plugin_cleanup
    (env : Env) (st : PState)
    (collectionName storagePluginName encryptionPluginName : String)
    (us : UnlockSemantic) (acm : AccessControlMode)
    (hname : eqCI collectionName "standalone" = false)
    (hp1 : storagePluginName = encryptionPluginName →
      storagePluginName ∈ env.encryptedStoragePlugins)
    (hp2 : storagePluginName ≠ encryptionPluginName →
      storagePluginName ∈ env.storagePlugins)
    (hp3 : storagePluginName ≠ encryptionPluginName →
      encryptionPluginName ∈ env.encryptionPlugins)
    (hex : env.collectionAlreadyExists collectionName = (Result.succeeded, false))
    (hbusy : interleavedRequestsAllowed st collectionName = true)
    (hins : env.insertCollectionResult.code = ResultCode.Succeeded) :
    (createDeviceLockCollection env st collectionName storagePluginName
        encryptionPluginName us acm).tr.take 4
      = [Event.bkdbCollectionExists collectionName,
         Event.busyInsert collectionName,
         Event.bkdbInsertCollection collectionName,
         Event.pluginCreateCollection storagePluginName collectionName]
    ∧ (env.pluginCreateCollectionResult.code ≠ ResultCode.Succeeded →
        createDeviceLockCollection env st collectionName storagePluginName
            encryptionPluginName us acm
          = ⟨Result.pendingResult,
              some (if env.cleanupDeleteCollectionResult.code != ResultCode.Succeeded
                then env.cleanupDeleteCollectionResult
                else env.pluginCreateCollectionResult),
              allowInterleavedRequests (preventInterleavedRequests st collectionName)
                collectionName,
              [Event.bkdbCollectionExists collectionName,
               Event.busyInsert collectionName,
               Event.bkdbInsertCollection collectionName,
               Event.pluginCreateCollection storagePluginName collectionName,
               Event.bkdbCleanupDeleteCollection collectionName,
               Event.busyRemove collectionName]⟩) := by
  constructor
  · simp [createDeviceLockCollection, hname, hex, hbusy, hins, Result.succeeded]
    rw [if_neg (by tauto), if_neg (by tauto), if_neg (by tauto)]
    split_ifs <;> rfl
  · intro hplug
    simp [createDeviceLockCollection, hname, hex, hbusy, hins, hplug, Result.succeeded]
    rw [if_neg (by tauto), if_neg (by tauto), if_neg (by tauto)]

/-- Environment where the plugin fails to create the collection. -/
def envC2 : Env :=
  { baseEnv with
    pluginCreateCollectionResult := Result.err ErrorCode.UnknownError "plugin create failed" }

/-- Witness for claim C2: at a concrete input with a failing plugin
create and a succeeding cleanup, the delivered result is the plugin's
error. -/
theorem createDeviceLockCollection_insert_then_plugin_cleanup_witness :
    (createDeviceLockCollection envC2 baseState "notes" "encstore" "encstore"
        UnlockSemantic.DeviceLockKeepUnlocked AccessControlMode.OwnerOnlyMode).final
      = some (Result.err ErrorCode.UnknownError "plugin create failed") := by
  have h := (createDeviceLockCollection_insert_then_plugin_cleanup envC2 baseState
      "notes" "encstore" "encstore" UnlockSemantic.DeviceLockKeepUnlocked
      AccessControlMode.OwnerOnlyMode (by decide) (by decide) (by decide) (by decide)
      (by decide) (by decide) (by decide)).2 (by decide)
  rw [h]
  decide

/-- Claim C4: a `get_collection_secret` call whose collection row is
OwnerOnly with an owner differing from the caller returns
`PermissionsError`, leaves the state unchanged, delivers no payload
(`final = none`), and its trace holds only the metadata read: no
plugin read was dispatched. -/
theorem getCollectionSecret_ownerOnly_permissions_error
    (env : Env) (st : PState) (identifier : Identifier)
    (uim : UserInteractionMode) (isa : String) (m : CollectionMetadata)
    (hn : identifier.name.isEmpty = false)
    (hc : identifier.collectionName.isEmpty = false)
    (hstd : eqCI identifier.collectionName "standalone" = false)
    (hmd : env.collectionMetadata identifier.collectionName = (Result.succeeded, some m))
    (hp1 : m.storagePluginName = m.encryptionPluginName →
      m.storagePluginName ∈ env.encryptedStoragePlugins)
    (hp2 : m.storagePluginName ≠ m.encryptionPluginName →
      m.storagePluginName ∈ env.storagePlugins)
    (hp3 : m.storagePluginName ≠ m.encryptionPluginName →
      m.encryptionPluginName ∈ env.encryptionPlugins)
    (hacm : m.accessControlMode = AccessControlMode.OwnerOnlyMode)
    (hown : m.applicationId ≠ callerApplicationId env) :
    getCollectionSecret env st identifier uim isa
      = Step.ret (Result.err ErrorCode.PermissionsError
          "Collection is owned by a different application") st
          [Event.bkdbCollectionMetadata identifier.collectionName] := by
  simp [getCollectionSecret, hn, hc, hstd, hmd, hacm, hown, Result.succeeded]
  rw [if_neg (by tauto), if_neg (by tauto), if_neg (by tauto)]

/-- Collection row owned by `appB` (the caller is `appA`). -/
def mdPriv : CollectionMetadata where
  applicationId := "appB"
  usesDeviceLockKey := false
  storagePluginName := "encstore"
  encryptionPluginName := "encstore"
  authenticationPluginName := "auth"
  unlockSemantic := UnlockSemantic.CustomLockKeepUnlocked
  customLockTimeoutMs := 0
  accessControlMode := AccessControlMode.OwnerOnlyMode

/-- Environment holding the collection `priv` owned by `appB`. -/
def envC4 : Env :=
  { baseEnv with
    collectionMetadata := fun c =>
      if c = "priv" then (Result.succeeded, some mdPriv)
      else (Result.succeeded, none) }

/-- Witness for claim C4: application B reading `priv/x` gets
`PermissionsError`. -/
theorem getCollectionSecret_ownerOnly_permissions_error_witness :
    (getCollectionSecret envC4 baseState ⟨"x", "priv"⟩
        UserInteractionMode.SystemInteraction "").sync.errorCode
      = ErrorCode.PermissionsError := by
  have h := getCollectionSecret_ownerOnly_permissions_error envC4 baseState
      ⟨"x", "priv"⟩ UserInteractionMode.SystemInteraction "" mdPriv
      (by decide) (by decide) (by decide) (by decide) (by decide) (by decide)
      (by decide) (by decide) (by decide)
  rw [h]
  rfl

/-- State of the processor after reading the standalone custom-lock
timeout-relock secret `x` through split storage and encryption
plugins. -/
def c5AfterRead : PState :=
  (getStandaloneSecretWithEncryptionKey baseEnv baseState ⟨"x", ""⟩ "store" "enc"
    UnlockSemantic.CustomLockTimoutRelock 500 [7, 7]).st

/-- Claim C5 (code bug, evaluated at the failing input): reading the
standalone custom-lock timeout-relock secret `x` installs the relock
timer under the plain name `x`, not under the hashed secret name, while
the unlock key is cached under the hashed name; when the timer fires,
the eviction removes the cache entry keyed by the plain name, so the
unlock key is still cached under the hashed name after the timeout. -/
theorem standalone_relock_timer_does_not_evict_key :
    mapContains c5AfterRead.standaloneSecretLockTimers "x" = true
    ∧ mapContains c5AfterRead.standaloneSecretLockTimers
        (generateHashedSecretName "standalone" "x") = false
    ∧ mapContains c5AfterRead.standaloneSecretEncryptionKeys
        (generateHashedSecretName "standalone" "x") = true
    ∧ mapContains (timeoutRelockSecret c5AfterRead "x").standaloneSecretLockTimers
        "x" = false
    ∧ mapContains (timeoutRelockSecret c5AfterRead "x").standaloneSecretEncryptionKeys
        (generateHashedSecretName "standalone" "x") = true := by
  decide

/-- Environment where the caller is the platform application. -/
def envPlat : Env :=
  { baseEnv with applicationIsPlatformApplication := true }

/-- Counterexample for claim C6: the sentinel lock code that
`forget_lock_code` feeds to the key re-initialisation is 64 bytes long
but is not the byte `0xff` repeated 64 times. -/
theorem forgetLockCode_sentinel_not_ff :
    (forgetLockCode envPlat baseState LockCodeTargetType.BookkeepingDatabase "").tr.head?
      = some (Event.initialiseKey forgetLockCodeSentinel)
    ∧ forgetLockCodeSentinel.length = 64
    ∧ forgetLockCodeSentinel ≠ List.replicate 64 255 := by
  decide

/-- Claim C6 (amended): `forget_lock_code` with the bookkeeping
database target and a platform caller re-initialises the key material
from the 64-byte sentinel consisting of the ASCII character `f` (byte
`0x66`) repeated 64 times, then locks the bookkeeping database and the
storage plugins, returning the lock result. -/
theorem forgetLockCode_bookkeeping_sentinel_lock
    (env : Env) (st : PState)
    (happ : env.applicationIsPlatformApplication = true)
    (hinit : env.initialiseOk forgetLockCodeSentinel = true) :
    forgetLockCode env st LockCodeTargetType.BookkeepingDatabase ""
      = ⟨env.bkdbLockResult, none, { st with keyInitCode := forgetLockCodeSentinel },
          [Event.initialiseKey forgetLockCodeSentinel, Event.bkdbLock,
           Event.masterLockPlugins]⟩
    ∧ forgetLockCodeSentinel = List.replicate 64 102 := by
  have hemp : ("" : String).isEmpty = true := by decide
  constructor
  · simp [forgetLockCode, happ, hinit, hemp, Step.ret]
  · decide

/-- Witness for claim C6: after the concrete call the key material is
initialised from the 64-byte `0x66` sentinel. -/
theorem forgetLockCode_bookkeeping_sentinel_lock_witness :
    (forgetLockCode envPlat baseState LockCodeTargetType.BookkeepingDatabase "").st.keyInitCode
      = List.replicate 64 102 := by
  have h := forgetLockCode_bookkeeping_sentinel_lock envPlat baseState (by decide) (by decide)
  rw [h.1]
  exact h.2

/-- Counterexample for claim C7: `create_device_lock_collection` does
not reject the empty collection name; with valid plugins it proceeds
past name validation, performs the bookkeeping existence lookup and
returns `Pending`. -/
theorem createDeviceLockCollection_accepts_empty_name :
    ("" : String).isEmpty = true
    ∧ (createDeviceLockCollection baseEnv baseState "" "encstore" "encstore"
        UnlockSemantic.DeviceLockKeepUnlocked AccessControlMode.OwnerOnlyMode).sync
      = Result.pendingResult
    ∧ (createDeviceLockCollection baseEnv baseState "" "encstore" "encstore"
        UnlockSemantic.DeviceLockKeepUnlocked AccessControlMode.OwnerOnlyMode).tr.head?
      = some (Event.bkdbCollectionExists "") := by
  decide

/-- Claim C7 (amended): `delete_collection` and the per-secret
collection operations (`set_collection_secret`,
`get_collection_secret`, `delete_collection_secret`,
`find_collection_secrets`) reject an empty collection name and the
reserved name `standalone` (case-insensitively) with
`InvalidCollectionError` before any metadata lookup, plugin call or
state change; the two create-collection operations reject only the
reserved name, and with valid plugins they accept the empty name and
proceed. -/
theorem collection_name_validation :
    (∀ (env : Env) (st : PState) (uim : UserInteractionMode),
      deleteCollection env st "" uim
        = Step.ret (Result.err ErrorCode.InvalidCollectionError
            "Empty collection name given") st [])
    ∧ (∀ (env : Env) (st : PState) (c : String) (uim : UserInteractionMode),
        eqCI c "standalone" = true →
        deleteCollection env st c uim
          = Step.ret (Result.err ErrorCode.InvalidCollectionError
              "Reserved collection name given") st [])
    ∧ (∀ (env : Env) (st : PState) (name : String) (ui : InteractionParams)
        (uim : UserInteractionMode), name.isEmpty = false →
        setCollectionSecret env st ⟨name, ""⟩ ui uim
          = Step.ret (Result.err ErrorCode.InvalidCollectionError
              "Empty collection name given") st [])
    ∧ (∀ (env : Env) (st : PState) (name c : String) (ui : InteractionParams)
        (uim : UserInteractionMode), name.isEmpty = false →
        c.isEmpty = false → eqCI c "standalone" = true →
        setCollectionSecret env st ⟨name, c⟩ ui uim
          = Step.ret (Result.err ErrorCode.InvalidCollectionError
              "Reserved collection name given") st [])
    ∧ (∀ (env : Env) (st : PState) (name : String) (uim : UserInteractionMode)
        (isa : String), name.isEmpty = false →
        getCollectionSecret env st ⟨name, ""⟩ uim isa
          = Step.ret (Result.err ErrorCode.InvalidCollectionError
              "Empty collection name given") st [])
    ∧ (∀ (env : Env) (st : PState) (name c : String) (uim : UserInteractionMode)
        (isa : String), name.isEmpty = false → c.isEmpty = false →
        eqCI c "standalone" = true →
        getCollectionSecret env st ⟨name, c⟩ uim isa
          = Step.ret (Result.err ErrorCode.InvalidCollectionError
              "Reserved collection name given") st [])
    ∧ (∀ (env : Env) (st : PState) (name : String) (uim : UserInteractionMode)
        (isa : String), name.isEmpty = false →
        deleteCollectionSecret env st ⟨name, ""⟩ uim isa
          = Step.ret (Result.err ErrorCode.InvalidCollectionError
              "Empty collection name given") st [])
    ∧ (∀ (env : Env) (st : PState) (name c : String) (uim : UserInteractionMode)
        (isa : String), name.isEmpty = false → c.isEmpty = false →
        eqCI c "standalone" = true →
        deleteCollectionSecret env st ⟨name, c⟩ uim isa
          = Step.ret (Result.err ErrorCode.InvalidCollectionError
              "Reserved collection name given") st [])
    ∧ (∀ (env : Env) (st : PState) (f : FilterData) (fo : FilterOperator)
        (uim : UserInteractionMode) (isa : String),
        findCollectionSecrets env st "" f fo uim isa
          = Step.ret (Result.err ErrorCode.InvalidCollectionError
              "Empty collection name given") st [])
    ∧ (∀ (env : Env) (st : PState) (c : String) (f : FilterData)
        (fo : FilterOperator) (uim : UserInteractionMode) (isa : String),
        c.isEmpty = false → eqCI c "standalone" = true →
        findCollectionSecrets env st c f fo uim isa
          = Step.ret (Result.err ErrorCode.InvalidCollectionError
              "Reserved collection name given") st [])
    ∧ (∀ (env : Env) (st : PState) (c sp ep : String) (us : UnlockSemantic)
        (acm : AccessControlMode), eqCI c "standalone" = true →
        createDeviceLockCollection env st c sp ep us acm
          = Step.ret (Result.err ErrorCode.InvalidCollectionError
              "Reserved collection name given") st [])
    ∧ (∀ (env : Env) (st : PState) (c sp ep ap : String) (us : UnlockSemantic)
        (tm : Nat) (acm : AccessControlMode) (uim : UserInteractionMode)
        (isa : String), eqCI c "standalone" = true →
        createCustomLockCollection env st c sp ep ap us tm acm uim isa
          = Step.ret (Result.err ErrorCode.InvalidCollectionError
              "Reserved collection name given") st [])
    ∧ (∀ (env : Env) (st : PState) (sp ep : String) (us : UnlockSemantic)
        (acm : AccessControlMode),
        (sp = ep → sp ∈ env.encryptedStoragePlugins) →
        (sp ≠ ep → sp ∈ env.storagePlugins) →
        (sp ≠ ep → ep ∈ env.encryptionPlugins) →
        env.collectionAlreadyExists "" = (Result.succeeded, false) →
        interleavedRequestsAllowed st "" = true →
        env.insertCollectionResult.code = ResultCode.Succeeded →
        (createDeviceLockCollection env st "" sp ep us acm).sync = Result.pendingResult)
    ∧ (∀ (env : Env) (st : PState) (sp ep ap : String) (us : UnlockSemantic)
        (tm : Nat) (acm : AccessControlMode) (uim : UserInteractionMode)
        (isa : String),
        (sp = ep → sp ∈ env.encryptedStoragePlugins) →
        (sp ≠ ep → sp ∈ env.storagePlugins) →
        (sp ≠ ep → ep ∈ env.encryptionPlugins) →
        ap ∈ env.authenticationPlugins →
        env.authenticationTypesAppSpecific ap = false →
        uim ≠ UserInteractionMode.PreventInteraction →
        env.collectionAlreadyExists "" = (Result.succeeded, false) →
        env.beginUserInputResult.code = ResultCode.Succeeded →
        (createCustomLockCollection env st "" sp ep ap us tm acm uim isa).sync
          = Result.pendingResult) := by
  have hstd : eqCI "" "standalone" = false := by decide
  have hemp : ("" : String).isEmpty = true := by decide
  refine ⟨?_, ?_, ?_, ?_, ?_, ?_, ?_, ?_, ?_, ?_, ?_, ?_, ?_, ?_⟩
  · intro env st uim
    simp [deleteCollection, hstd, hemp]
  · intro env st c uim h
    simp [deleteCollection, h]
  · intro env st name ui uim hn
    simp [setCollectionSecret, hn, hstd, hemp]
  · intro env st name c ui uim hn hc h
    simp [setCollectionSecret, hn, hc, h]
  · intro env st name uim isa hn
    simp [getCollectionSecret, hn, hstd, hemp]
  · intro env st name c uim isa hn hc h
    simp [getCollectionSecret, hn, hc, h]
  · intro env st name uim isa hn
    simp [deleteCollectionSecret, hn, hstd, hemp]
  · intro env st name c uim isa hn hc h
    simp [deleteCollectionSecret, hn, hc, h]
  · intro env st f fo uim isa
    simp [findCollectionSecrets, hstd, hemp]
  · intro env st c f fo uim isa hc h
    simp [findCollectionSecrets, hc, h]
  · intro env st c sp ep us acm h
    simp [createDeviceLockCollection, h]
  · intro env st c sp ep ap us tm acm uim isa h
    simp [createCustomLockCollection, h]
  · intro env st sp ep us acm hp1 hp2 hp3 hex hbusy hins
    simp [createDeviceLockCollection, hstd, hex, hbusy, hins, Result.succeeded]
    rw [if_neg (by tauto), if_neg (by tauto), if_neg (by tauto)]
    split_ifs <;> rfl
  · intro env st sp ep ap us tm acm uim isa hp1 hp2 hp3 hap htypes huim hex hbegin
    simp [createCustomLockCollection, hstd, hap, htypes, huim, hex, hbegin,
      Result.succeeded]
    rw [if_neg (by tauto), if_neg (by tauto), if_neg (by tauto)]

/-- Witness for claim C7 (amended) at a concrete input: deleting the
empty-named collection is rejected with `InvalidCollectionError` and
no effects. -/
theorem collection_name_validation_witness :
    deleteCollection baseEnv baseState "" UserInteractionMode.SystemInteraction
      = Step.ret (Result.err ErrorCode.InvalidCollectionError
          "Empty collection name given") baseState [] :=
  collection_name_validation.1 baseEnv baseState UserInteractionMode.SystemInteraction

/-- Claim C10: when `delete_standalone_secret` succeeds for a secret
stored via split storage and encryption plugins, the cached unlock key
(under the hashed secret name) is removed from the key cache before
the bookkeeping row delete: the final state's cache lacks the hashed
name and the trace shows the cache eviction strictly before the
bookkeeping row delete. -/
theorem deleteStandaloneSecret_evicts_cached_key
    (env : Env) (st : PState) (identifier : Identifier)
    (uim : UserInteractionMode) (srow : SecretMetadata)
    (hmd : env.secretMetadata "standalone"
        (generateHashedSecretName "standalone" identifier.name)
      = (Result.succeeded, some srow))
    (hacm : srow.accessControlMode ≠ AccessControlMode.SystemAccessControlMode)
    (hown : ¬(srow.accessControlMode = AccessControlMode.OwnerOnlyMode
        ∧ srow.applicationId ≠ callerApplicationId env))
    (hsplit : srow.storagePluginName ≠ srow.encryptionPluginName)
    (hsp : srow.storagePluginName ∈ env.storagePlugins)
    (hep : srow.encryptionPluginName ∈ env.encryptionPlugins)
    (hplug : env.pluginRemoveSecretResult.code = ResultCode.Succeeded) :
    mapContains
        (deleteStandaloneSecret env st identifier uim).st.standaloneSecretEncryptionKeys
        (generateHashedSecretName "standalone" identifier.name) = false
    ∧ (deleteStandaloneSecret env st identifier uim).tr
      = [Event.bkdbSecretMetadata "standalone"
           (generateHashedSecretName "standalone" identifier.name),
         Event.pluginRemoveSecret srow.storagePluginName "standalone"
           (generateHashedSecretName "standalone" identifier.name),
         Event.cacheRemoveStandaloneKey
           (generateHashedSecretName "standalone" identifier.name),
         Event.bkdbDeleteSecret "standalone"
           (generateHashedSecretName "standalone" identifier.name)] := by
  constructor
  · simp [deleteStandaloneSecret, hmd, hacm, hsplit, hsp, hep, hplug, Result.succeeded]
    rw [if_neg (by tauto)]
    split_ifs <;> simp [mapContains_mapRemove]
  · simp [deleteStandaloneSecret, hmd, hacm, hsplit, hsp, hep, hplug, Result.succeeded]
    rw [if_neg (by tauto)]
    split_ifs <;> rfl

/-- Standalone secret row for `x`, split storage and encryption. -/
def srowStand : SecretMetadata where
  applicationId := "appA"
  usesDeviceLockKey := false
  storagePluginName := "store"
  encryptionPluginName := "enc"
  authenticationPluginName := "auth"
  unlockSemantic := UnlockSemantic.CustomLockTimoutRelock
  customLockTimeoutMs := 500
  accessControlMode := AccessControlMode.OwnerOnlyMode

/-- Environment holding the standalone secret row for `x`. -/
def envC10 : Env :=
  { baseEnv with
    secretMetadata := fun c h =>
      if c = "standalone" ∧ h = generateHashedSecretName "standalone" "x"
      then (Result.succeeded, some srowStand)
      else (Result.succeeded, none) }

/-- Witness for claim C10 at a concrete input: after a successful
delete of the standalone secret `x`, its unlock key is no longer
cached. -/
theorem deleteStandaloneSecret_evicts_cached_key_witness :
    mapContains
        (deleteStandaloneSecret envC10 baseState ⟨"x", ""⟩
          UserInteractionMode.SystemInteraction).st.standaloneSecretEncryptionKeys
        (generateHashedSecretName "standalone" "x") = false :=
  (deleteStandaloneSecret_evicts_cached_key envC10 baseState ⟨"x", ""⟩
    UserInteractionMode.SystemInteraction srowStand (by decide) (by decide)
    (by decide) (by decide) (by decide) (by decide) (by decide)).1

/-- Claim C8: when the plugin write of `set_collection_secret` fails,
the bookkeeping secret row is cleanup-deleted only if this request
inserted it: for a pre-existing row the error path performs no
bookkeeping write at all and returns the plugin error; for a freshly
inserted row a cleanup delete runs, and a failing cleanup replaces the
plugin error in the delivered result. -/
theorem setCollectionSecret_cleanup_only_new_rows
    (env : Env) (st : PState) (secret : Identifier) (sp ep : String)
    (key : Bytes) (tr : List Event)
    (hfail : env.pluginSetSecretResult.code = ResultCode.Failed) :
    (env.secretAlreadyExists secret.collectionName
        (generateHashedSecretName secret.collectionName secret.name)
      = (Result.succeeded, true) →
      (setCollectionSecretWithEncryptionKey env st secret sp ep key tr).final
        = env.pluginSetSecretResult
      ∧ (setCollectionSecretWithEncryptionKey env st secret sp ep key tr).tr
        = tr ++ [Event.bkdbSecretExists secret.collectionName
              (generateHashedSecretName secret.collectionName secret.name),
            Event.pluginSetSecret sp secret.collectionName
              (generateHashedSecretName secret.collectionName secret.name)])
    ∧ (env.secretAlreadyExists secret.collectionName
        (generateHashedSecretName secret.collectionName secret.name)
      = (Result.succeeded, false) →
      env.insertSecretResult.code = ResultCode.Succeeded →
      (setCollectionSecretWithEncryptionKey env st secret sp ep key tr).final
        = some (if env.cleanupDeleteSecretResult.code != ResultCode.Succeeded
            then env.cleanupDeleteSecretResult
            else env.pluginSetSecretResult)
      ∧ (setCollectionSecretWithEncryptionKey env st secret sp ep key tr).tr
        = tr ++ [Event.bkdbSecretExists secret.collectionName
              (generateHashedSecretName secret.collectionName secret.name),
            Event.bkdbInsertSecret secret.collectionName
              (generateHashedSecretName secret.collectionName secret.name),
            Event.pluginSetSecret sp secret.collectionName
              (generateHashedSecretName secret.collectionName secret.name),
            Event.bkdbCleanupDeleteSecret secret.collectionName
              (generateHashedSecretName secret.collectionName secret.name)]) := by
  constructor
  · intro hex
    simp [setCollectionSecretWithEncryptionKey, setCollectionSecretDispatch,
      setCollectionSecretWithEncryptionKeyFinalise, hex, hfail, Result.succeeded]
    split_ifs <;> simp
  · intro hex hins
    simp [setCollectionSecretWithEncryptionKey, setCollectionSecretDispatch,
      setCollectionSecretWithEncryptionKeyFinalise, hex, hins, hfail,
      Result.succeeded]
    split_ifs <;> simp

/-- Environment where the secret row already exists and the plugin
write fails. -/
def envC8 : Env :=
  { baseEnv with
    pluginSetSecretResult := Result.err ErrorCode.UnknownError "store failed",
    secretAlreadyExists := fun _ _ => (Result.succeeded, true) }

/-- Witness for claim C8 at a concrete input: with a pre-existing row
and a failing plugin write, the trace holds no bookkeeping write and
the plugin error is delivered unchanged. -/
theorem setCollectionSecret_cleanup_only_new_rows_witness :
    (setCollectionSecretWithEncryptionKey envC8 baseState ⟨"x", "notes"⟩
        "encstore" "encstore" [] []).tr
      = [Event.bkdbSecretExists "notes" (generateHashedSecretName "notes" "x"),
         Event.pluginSetSecret "encstore" "notes"
           (generateHashedSecretName "notes" "x")] := by
  have h := (setCollectionSecret_cleanup_only_new_rows envC8 baseState
      ⟨"x", "notes"⟩ "encstore" "encstore" [] [] (by decide)).1 (by decide)
  simpa using h.2

/-- Claim C9: when a standalone secret row already exists and the
caller passes the access checks, `set_standalone_device_lock_secret`
and `set_standalone_custom_lock_secret` fail with
`OperationNotSupportedError` whenever the call would change the
secret's lock class or its storage plugin (names compared
case-insensitively); the state is unchanged and only the metadata read
appears in the trace. -/
theorem setStandaloneSecret_lock_class_and_plugin_immutable :
    (∀ (env : Env) (st : PState) (sp ep : String) (secret : Identifier)
        (ui : InteractionParams) (us : UnlockSemantic) (acm : AccessControlMode)
        (uim : UserInteractionMode) (srow : SecretMetadata),
      secret.name.isEmpty = false →
      (sp = ep → sp ∈ env.encryptedStoragePlugins) →
      (sp ≠ ep → sp ∈ env.storagePlugins) →
      (sp ≠ ep → ep ∈ env.encryptionPlugins) →
      env.secretMetadata "standalone" (generateHashedSecretName "standalone" secret.name)
        = (Result.succeeded, some srow) →
      srow.accessControlMode ≠ AccessControlMode.SystemAccessControlMode →
      ¬(srow.accessControlMode = AccessControlMode.OwnerOnlyMode
          ∧ srow.applicationId ≠ callerApplicationId env) →
      (srow.usesDeviceLockKey = false ∨ eqCI srow.storagePluginName sp = false) →
      (setStandaloneDeviceLockSecret env st sp ep secret ui us acm uim).sync.errorCode
        = ErrorCode.OperationNotSupportedError
      ∧ (setStandaloneDeviceLockSecret env st sp ep secret ui us acm uim).final = none
      ∧ (setStandaloneDeviceLockSecret env st sp ep secret ui us acm uim).st = st
      ∧ (setStandaloneDeviceLockSecret env st sp ep secret ui us acm uim).tr
        = [Event.bkdbSecretMetadata "standalone"
            (generateHashedSecretName "standalone" secret.name)])
    ∧ (∀ (env : Env) (st : PState) (sp ep ap : String) (secret : Identifier)
        (ui : InteractionParams) (us : UnlockSemantic) (tm : Nat)
        (acm : AccessControlMode) (uim : UserInteractionMode) (isa : String)
        (srow : SecretMetadata),
      secret.name.isEmpty = false →
      (sp = ep → sp ∈ env.encryptedStoragePlugins) →
      (sp ≠ ep → sp ∈ env.storagePlugins) →
      (sp ≠ ep → ep ∈ env.encryptionPlugins) →
      env.secretMetadata "standalone" (generateHashedSecretName "standalone" secret.name)
        = (Result.succeeded, some srow) →
      srow.accessControlMode ≠ AccessControlMode.SystemAccessControlMode →
      ¬(srow.accessControlMode = AccessControlMode.OwnerOnlyMode
          ∧ srow.applicationId ≠ callerApplicationId env) →
      (srow.usesDeviceLockKey = true ∨ eqCI srow.storagePluginName sp = false) →
      (setStandaloneCustomLockSecret env st sp ep ap secret ui us tm acm uim isa).sync.errorCode
        = ErrorCode.OperationNotSupportedError
      ∧ (setStandaloneCustomLockSecret env st sp ep ap secret ui us tm acm uim isa).final
        = none
      ∧ (setStandaloneCustomLockSecret env st sp ep ap secret ui us tm acm uim isa).st = st
      ∧ (setStandaloneCustomLockSecret env st sp ep ap secret ui us tm acm uim isa).tr
        = [Event.bkdbSecretMetadata "standalone"
            (generateHashedSecretName "standalone" secret.name)]) := by
  constructor
  · intro env st sp ep secret ui us acm uim srow hn hp1 hp2 hp3 hmd hacm hown hchange
    unfold setStandaloneDeviceLockSecret
    rcases hchange with hdl | hpl
    · simp [hn, hmd, hacm, hdl, Result.succeeded]
      rw [if_neg (by tauto), if_neg (by tauto), if_neg (by tauto), if_neg (by tauto)]
      exact ⟨rfl, rfl, rfl, rfl⟩
    · by_cases hdl : srow.usesDeviceLockKey
      · simp [hn, hmd, hacm, hdl, hpl, Result.succeeded]
        rw [if_neg (by tauto), if_neg (by tauto), if_neg (by tauto), if_neg (by tauto)]
        exact ⟨rfl, rfl, rfl, rfl⟩
      · simp [hn, hmd, hacm, hdl, Result.succeeded]
        rw [if_neg (by tauto), if_neg (by tauto), if_neg (by tauto), if_neg (by tauto)]
        exact ⟨rfl, rfl, rfl, rfl⟩
  · intro env st sp ep ap secret ui us tm acm uim isa srow hn hp1 hp2 hp3 hmd hacm hown hchange
    unfold setStandaloneCustomLockSecret
    rcases hchange with hdl | hpl
    · simp [hn, hmd, hacm, hdl, Result.succeeded]
      rw [if_neg (by tauto), if_neg (by tauto), if_neg (by tauto), if_neg (by tauto)]
      exact ⟨rfl, rfl, rfl, rfl⟩
    · by_cases hdl : srow.usesDeviceLockKey
      · simp [hn, hmd, hacm, hdl, Result.succeeded]
        rw [if_neg (by tauto), if_neg (by tauto), if_neg (by tauto), if_neg (by tauto)]
        exact ⟨rfl, rfl, rfl, rfl⟩
      · simp [hn, hmd, hacm, hdl, hpl, Result.succeeded]
        rw [if_neg (by tauto), if_neg (by tauto), if_neg (by tauto), if_neg (by tauto)]
        exact ⟨rfl, rfl, rfl, rfl⟩

/-- Standalone custom-lock secret row for `y`, stored via `store`. -/
def srowCustomY : SecretMetadata where
  applicationId := "appA"
  usesDeviceLockKey := false
  storagePluginName := "store"
  encryptionPluginName := "enc"
  authenticationPluginName := "auth"
  unlockSemantic := UnlockSemantic.CustomLockKeepUnlocked
  customLockTimeoutMs := 0
  accessControlMode := AccessControlMode.OwnerOnlyMode

/-- Environment holding a custom-lock standalone secret row for `y`. -/
def envC9 : Env :=
  { baseEnv with
    secretMetadata := fun c h =>
      if c = "standalone" ∧ h = generateHashedSecretName "standalone" "y"
      then (Result.succeeded, some srowCustomY)
      else (Result.succeeded, none) }

/-- Witness for claim C9 at a concrete input: re-storing the existing
custom-lock secret `y` as a device-lock secret fails with
`OperationNotSupportedError` and leaves the state unchanged. -/
theorem setStandaloneSecret_lock_class_and_plugin_immutable_witness :
    (setStandaloneDeviceLockSecret envC9 baseState "store" "enc" ⟨"y", ""⟩
        ⟨false, ""⟩ UnlockSemantic.DeviceLockKeepUnlocked
        AccessControlMode.OwnerOnlyMode
        UserInteractionMode.SystemInteraction).sync.errorCode
      = ErrorCode.OperationNotSupportedError :=
  (setStandaloneSecret_lock_class_and_plugin_immutable.1 envC9 baseState "store"
    "enc" ⟨"y", ""⟩ ⟨false, ""⟩ UnlockSemantic.DeviceLockKeepUnlocked
    AccessControlMode.OwnerOnlyMode UserInteractionMode.SystemInteraction
    srowCustomY (by decide) (by decide) (by decide) (by decide) (by decide)
    (by decide) (by decide) (by decide)).1

/-- Claim C3: when re-encrypting the bookkeeping store under the new
bookkeeping-lock key fails during `modify_lock_code`, the processor
re-initialises the key material from the old lock code and returns the
re-encrypt error; the trace contains no collection, standalone-secret
or plugin re-encryption and the key state derives again from the old
lock code. -/
theorem modifyLockCode_reencrypt_failure_restores_old_key
    (env : Env) (st : PState) (lockCodeTarget : String)
    (oldLockCode newLockCode : Bytes)
    (htest : env.testLockCode oldLockCode = true)
    (hinitdb : env.bkdbIsInitialised = true)
    (hnew : env.initialiseOk newLockCode = true)
    (hold : env.initialiseOk oldLockCode = true)
    (hfail : env.reencryptResult.code ≠ ResultCode.Succeeded) :
    modifyLockCodeWithLockCodes env st LockCodeTargetType.BookkeepingDatabase
        lockCodeTarget oldLockCode newLockCode
      = Step.ret env.reencryptResult { st with keyInitCode := oldLockCode }
          [Event.initialiseKey newLockCode, Event.bkdbReencrypt,
           Event.initialiseKey oldLockCode] := by
  unfold modifyLockCodeWithLockCodes
  simp [htest, hinitdb, hnew, hold, hfail, Step.ret]

/-- Environment where re-encrypting the bookkeeping database fails. -/
def envC3 : Env :=
  { baseEnv with
    reencryptResult := Result.err ErrorCode.UnknownError "reencrypt failed" }

/-- Witness for claim C3 at a concrete input: the re-encrypt error is
returned and the key material derives from the old lock code again. -/
theorem modifyLockCode_reencrypt_failure_restores_old_key_witness :
    (modifyLockCodeWithLockCodes envC3 baseState
        LockCodeTargetType.BookkeepingDatabase "" [1] [2]).sync
      = Result.err ErrorCode.UnknownError "reencrypt failed"
    ∧ (modifyLockCodeWithLockCodes envC3 baseState
        LockCodeTargetType.BookkeepingDatabase "" [1] [2]).st.keyInitCode = [1] := by
  have h := modifyLockCode_reencrypt_failure_restores_old_key envC3 baseState ""
      [1] [2] (by decide) (by decide) (by decide) (by decide) (by decide)
  rw [h]
  exact ⟨rfl, rfl⟩

/-- Collection row for `notes`: fused encrypted-storage plugin, owned
by the caller `appA`. -/
def mdNotes : CollectionMetadata where
  applicationId := "appA"
  usesDeviceLockKey := false
  storagePluginName := "encstore"
  encryptionPluginName := "encstore"
  authenticationPluginName := "auth"
  unlockSemantic := UnlockSemantic.CustomLockKeepUnlocked
  customLockTimeoutMs := 0
  accessControlMode := AccessControlMode.OwnerOnlyMode

/-- Environment holding the collection `notes` with its secret row
already present and the fused collection unlocked. -/
def envC1 : Env :=
  { baseEnv with
    collectionMetadata := fun c =>
      if c = "notes" then (Result.succeeded, some mdNotes)
      else (Result.succeeded, none),
    secretAlreadyExists := fun _ _ => (Result.succeeded, true) }

/-- Processor state in which a mutating request (such as a
`delete_collection` worker phase) holds the busy mark on `notes`. -/
def busyNotesState : PState :=
  { baseState with busyCollections := ["notes"] }

/-- Counterexample for claim C1: while `notes` is marked busy,
`set_collection_secret` on `notes` does not return
`InterleavedRequestError`; it proceeds, dispatches the plugin write
and returns `Pending`. -/
theorem setCollectionSecret_ignores_busy_collection :
    busyNotesState.busyCollections.contains "notes" = true
    ∧ (setCollectionSecret envC1 busyNotesState ⟨"x", "notes"⟩ ⟨false, ""⟩
        UserInteractionMode.SystemInteraction).sync = Result.pendingResult
    ∧ (setCollectionSecret envC1 busyNotesState ⟨"x", "notes"⟩ ⟨false, ""⟩
        UserInteractionMode.SystemInteraction).sync ≠ interleavedRequestError
    ∧ (setCollectionSecret envC1 busyNotesState ⟨"x", "notes"⟩ ⟨false, ""⟩
        UserInteractionMode.SystemInteraction).tr.contains
        (Event.pluginSetSecret "encstore" "notes"
          (generateHashedSecretName "notes" "x")) = true := by
  decide

/-- Claim C1 (amended): the busy set serialises only the operations
that consult it.  `set_collection_secret_metadata` and the
create-collection flow fail with `InterleavedRequestError` on a busy
collection before any asynchronous step, and `delete_collection`
brackets its plugin worker phase in the busy mark; but
`set_collection_secret` never consults the busy set, so concurrently
with a `delete_collection` on the same collection it proceeds and
returns `Pending`. -/
theorem interleaveGuard_scope :
    (∀ (env : Env) (st : PState) (identifier : Identifier),
      identifier.name.isEmpty = false →
      identifier.collectionName.isEmpty = false →
      eqCI identifier.collectionName "standalone" = false →
      interleavedRequestsAllowed st identifier.collectionName = false →
      setCollectionSecretMetadata env st identifier
        = Step.ret interleavedRequestError st [])
    ∧ (∀ (env : Env) (st : PState) (c sp ep : String) (us : UnlockSemantic)
        (acm : AccessControlMode),
      eqCI c "standalone" = false →
      (sp = ep → sp ∈ env.encryptedStoragePlugins) →
      (sp ≠ ep → sp ∈ env.storagePlugins) →
      (sp ≠ ep → ep ∈ env.encryptionPlugins) →
      env.collectionAlreadyExists c = (Result.succeeded, false) →
      interleavedRequestsAllowed st c = false →
      createDeviceLockCollection env st c sp ep us acm
        = Step.ret interleavedRequestError st [Event.bkdbCollectionExists c])
    ∧ (∀ (env : Env) (st : PState) (c : String) (uim : UserInteractionMode)
        (m : CollectionMetadata),
      eqCI c "standalone" = false →
      c.isEmpty = false →
      env.collectionMetadata c = (Result.succeeded, some m) →
      m.accessControlMode ≠ AccessControlMode.SystemAccessControlMode →
      ¬(m.accessControlMode = AccessControlMode.OwnerOnlyMode
          ∧ m.applicationId ≠ callerApplicationId env) →
      m.storagePluginName = m.encryptionPluginName →
      m.storagePluginName ∈ env.encryptedStoragePlugins →
      List.IsInfix
        [Event.busyInsert c, Event.pluginRemoveCollection m.storagePluginName c,
         Event.busyRemove c]
        (deleteCollection env st c uim).tr)
    ∧ (∀ (env : Env) (st : PState) (secret : Identifier) (ui : InteractionParams)
        (uim : UserInteractionMode) (m : CollectionMetadata),
      interleavedRequestsAllowed st secret.collectionName = false →
      secret.name.isEmpty = false →
      secret.collectionName.isEmpty = false →
      eqCI secret.collectionName "standalone" = false →
      env.collectionMetadata secret.collectionName = (Result.succeeded, some m) →
      m.accessControlMode ≠ AccessControlMode.SystemAccessControlMode →
      ¬(m.accessControlMode = AccessControlMode.OwnerOnlyMode
          ∧ m.applicationId ≠ callerApplicationId env) →
      m.storagePluginName = m.encryptionPluginName →
      m.storagePluginName ∈ env.encryptedStoragePlugins →
      ui.valid = false →
      env.pluginIsCollectionLocked secret.collectionName = (Result.succeeded, false) →
      (setCollectionSecret env st secret ui uim).sync = Result.pendingResult) := by
  refine ⟨?_, ?_, ?_, ?_⟩
  · intro env st identifier hn hc hstd hbusy
    unfold setCollectionSecretMetadata
    simp [hn, hc, hstd, hbusy]
  · intro env st c sp ep us acm hname hp1 hp2 hp3 hex hbusy
    unfold createDeviceLockCollection
    simp [hname, hex, hbusy, Result.succeeded]
    rw [if_neg (by tauto), if_neg (by tauto), if_neg (by tauto)]
  · intro env st c uim m hname hc hmd hacm hown hfused hesp
    have hesp2 : m.encryptionPluginName ∈ env.encryptedStoragePlugins := hfused ▸ hesp
    unfold deleteCollection deleteCollectionFinalise
    simp [hname, hc, hmd, hacm, hfused, hesp, hesp2, Result.succeeded]
    rw [if_neg (by tauto), if_neg (by tauto)]
    split_ifs
    · exact ⟨[Event.bkdbCollectionMetadata c], [], by simp⟩
    · exact ⟨[Event.bkdbCollectionMetadata c],
        [Event.bkdbDeleteCollection c], by simp [AsyncStep.toStep]⟩
    · exact ⟨[Event.bkdbCollectionMetadata c],
        [Event.bkdbDeleteCollection c], by simp [AsyncStep.toStep]⟩
  · intro env st secret ui uim m hbusy hn hc hstd hmd hacm hown hfused hesp hui hlk
    unfold setCollectionSecret setCollectionSecretGetAuthenticationCode
    simp [hn, hc, hstd, hmd, hacm, hfused, hesp, hui, hlk, Result.succeeded]
    rw [if_neg (by tauto), if_pos (hfused ▸ hesp)]
    exact AsyncStep.toStep_sync _

/-- Witness for claim C1 (amended) at a concrete input: while `notes`
is busy, the crypto-API helper `set_collection_secret_metadata` fails
synchronously with `InterleavedRequestError` and performs nothing. -/
theorem interleaveGuard_scope_witness :
    setCollectionSecretMetadata envC1 busyNotesState ⟨"x", "notes"⟩
      = Step.ret interleavedRequestError busyNotesState [] :=
  interleaveGuard_scope.1 envC1 busyNotesState ⟨"x", "notes"⟩
    (by decide) (by decide) (by decide) (by decide)

end SailfishSecrets
